import Mathlib

/-!
# Playwright MCP server: tool dispatch and browser-session lifecycle

A shallow embedding of `src/mcp-playwright/src/index.ts`.

* JSON-like argument values are `JVal`; numbers are rationals (every finite
  double is one; `NaN` and the infinities cannot arrive over JSON).
* The `zod` combinators used by the schemas are functions
  `JVal → Except (List ZodIssue) JVal`; the schemas are written with them
  exactly as in the source.
* The browser engine (playwright) is external: it is a record of reply
  functions that may depend on the whole history of engine calls, so that any
  behaviour of a real engine or of a test double is an instance.
* The server's three private fields are `Session`; a `World` is the session
  together with the history of completed engine calls.
* Handlers are written in the monad `M`, which keeps the world when a handler
  throws, as a JavaScript exception does.
-/

namespace PlaywrightMCP

/-! ## JavaScript values -/

/-- A JavaScript value as it can reach a handler: `undefined`, or JSON data. -/
inductive JVal where
  | undefined : JVal
  | null : JVal
  | bool (b : Bool) : JVal
  | num (q : ℚ) : JVal
  | str (s : String) : JVal
  | arr (xs : List JVal) : JVal
  | obj (kvs : List (String × JVal)) : JVal

namespace JVal

/-- Property lookup on an association list: the first entry under the key is
the property, and the value is `undefined` when the key is absent. -/
def lookup (key : String) : List (String × JVal) → JVal
  | [] => undefined
  | (k, v) :: rest => if k = key then v else lookup key rest

/-- The `key in data` test. -/
def hasKey (key : String) : List (String × JVal) → Bool
  | [] => false
  | (k, _) :: rest => k = key || hasKey key rest

/-- Reading `v.key` where `v` is an object; destructuring a parsed object and
the optional chaining `v?.key` both come to this (`undefined` off an
object). -/
def get (v : JVal) (key : String) : JVal :=
  match v with
  | obj kvs => lookup key kvs
  | _ => undefined

/-- JavaScript truthiness (`if (v)`, `v || d`, `v ? a : b`). -/
def truthy : JVal → Bool
  | undefined => false
  | null => false
  | bool b => b
  | num q => q ≠ 0
  | str s => s ≠ ""
  | arr _ => true
  | obj _ => true

/-- The JavaScript `a || b`. -/
def orElse (a b : JVal) : JVal := if a.truthy then a else b

/-- The `v !== undefined` test. -/
def isDefined : JVal → Bool
  | undefined => false
  | _ => true

end JVal

/-! ## The zod combinators -/

/-- The codes of the zod issues the schemas of this server can raise. -/
inductive IssueCode where
  | invalid_type | invalid_enum_value | invalid_string
  | too_small | too_big | invalid_union
  deriving DecidableEq, Repr

/-- One zod issue: its code and the path of keys and indices it was found at. -/
structure ZodIssue where
  code : IssueCode
  path : List (String ⊕ Nat)
  deriving DecidableEq

/-- A zod schema: its synchronous `parse`. -/
abbrev ZodType := JVal → Except (List ZodIssue) JVal

namespace z

/-- The issues of a failed parse, none for a successful one. -/
def issuesOf (r : Except (List ZodIssue) JVal) : List ZodIssue :=
  match r with
  | .ok _ => []
  | .error is => is

/-- Prefix the path of every issue with the key or index it was found under. -/
def under (seg : String ⊕ Nat) (is : List ZodIssue) : List ZodIssue :=
  is.map fun i => { i with path := seg :: i.path }

/-- The schema `z.string()`. -/
def string : ZodType
  | .str s => .ok (.str s)
  | _ => .error [⟨.invalid_type, []⟩]

/-- The schema `z.string().url()`: a string that `new URL` accepts. -/
def stringUrl (validUrl : String → Bool) : ZodType
  | .str s => if validUrl s then .ok (.str s) else .error [⟨.invalid_string, []⟩]
  | _ => .error [⟨.invalid_type, []⟩]

/-- The schema `z.number()`. -/
def number : ZodType
  | .num q => .ok (.num q)
  | _ => .error [⟨.invalid_type, []⟩]

/-- The schema `z.number().min(lo).max(hi)`: both bounds inclusive, both checked. -/
def numberMinMax (lo hi : ℚ) : ZodType
  | .num q =>
    let small : List ZodIssue := if q < lo then [⟨.too_small, []⟩] else []
    let big : List ZodIssue := if hi < q then [⟨.too_big, []⟩] else []
    if (small ++ big).isEmpty then .ok (.num q) else .error (small ++ big)
  | _ => .error [⟨.invalid_type, []⟩]

/-- The schema `z.boolean()`. -/
def boolean : ZodType
  | .bool b => .ok (.bool b)
  | _ => .error [⟨.invalid_type, []⟩]

/-- The schema `z.enum([...])`: a string among the listed ones. -/
def enum (values : List String) : ZodType
  | .str s => if s ∈ values then .ok (.str s) else .error [⟨.invalid_enum_value, []⟩]
  | _ => .error [⟨.invalid_type, []⟩]

/-- The modifier `.optional()`: `undefined` passes through. -/
def optional (inner : ZodType) : ZodType
  | .undefined => .ok .undefined
  | v => inner v

/-- The modifier `.default(d)`: `undefined` is replaced by `d` before the inner parse. -/
def default (inner : ZodType) (d : JVal) : ZodType
  | .undefined => inner d
  | v => inner v

/-- The elements of `z.array(inner)`: every element is parsed, all issues are kept. -/
def arrayItems (inner : ZodType) : Nat → List JVal → List ZodIssue × List JVal
  | _, [] => ([], [])
  | i, x :: xs =>
    let rest := arrayItems inner (i + 1) xs
    match inner x with
    | .ok v => (rest.1, v :: rest.2)
    | .error is => (under (.inr i) is ++ rest.1, rest.2)

/-- The schema `z.array(inner)`. -/
def array (inner : ZodType) : ZodType
  | .arr xs =>
    let r := arrayItems inner 0 xs
    if r.1.isEmpty then .ok (.arr r.2) else .error r.1
  | _ => .error [⟨.invalid_type, []⟩]

/-- The schema `z.union([a, b])`: the first option that accepts the value. -/
def union (a b : ZodType) : ZodType := fun v =>
  match a v with
  | .ok r => .ok r
  | .error _ =>
    match b v with
    | .ok r => .ok r
    | .error _ => .error [⟨.invalid_union, []⟩]

/-- The fields of `z.object(shape)`, in the order of the shape: each is parsed
from the property of that name (`undefined` when absent); a parsed field is
written to the output when its value is not `undefined` or the key is in the
input. Keys outside the shape are dropped (zod's default `strip`). -/
def objectFields (data : List (String × JVal)) :
    List (String × ZodType) → List ZodIssue × List (String × JVal)
  | [] => ([], [])
  | (key, schema) :: shape =>
    let rest := objectFields data shape
    match schema (JVal.lookup key data) with
    | .ok v =>
      if v.isDefined || JVal.hasKey key data then (rest.1, (key, v) :: rest.2)
      else (rest.1, rest.2)
    | .error is => (under (.inl key) is ++ rest.1, rest.2)

/-- The schema `z.object(shape)`. -/
def object (shape : List (String × ZodType)) : ZodType
  | .obj data =>
    let r := objectFields data shape
    if r.1.isEmpty then .ok (.obj r.2) else .error r.1
  | _ => .error [⟨.invalid_type, []⟩]

end z

/-! ## The schemas of the source -/

/-- The three fields of zod's `{ force, noWaitAfter, timeout }` option objects. -/
def forceOptions : ZodType :=
  z.object [
    ("force", z.optional z.boolean),
    ("noWaitAfter", z.optional z.boolean),
    ("timeout", z.optional z.number)]

/-- The three fields of zod's `{ delay, noWaitAfter, timeout }` option objects. -/
def delayOptions : ZodType :=
  z.object [
    ("delay", z.optional z.number),
    ("noWaitAfter", z.optional z.boolean),
    ("timeout", z.optional z.number)]

/-- The `{ timeout, waitUntil }` option object of go_back, go_forward and reload. -/
def historyOptions : ZodType :=
  z.object [
    ("timeout", z.optional z.number),
    ("waitUntil", z.optional (z.enum ["load", "domcontentloaded", "networkidle", "commit"]))]

/-- The schema `NavigateSchema`. -/
def NavigateSchema (validUrl : String → Bool) : ZodType :=
  z.object [
    ("url", z.stringUrl validUrl),
    ("browser", z.default (z.enum ["chromium", "firefox", "webkit"]) (.str "chromium")),
    ("headless", z.default z.boolean (.bool true))]

/-- The schema `ClickSchema`. -/
def ClickSchema : ZodType :=
  z.object [
    ("selector", z.string),
    ("options", z.optional (z.object [
      ("button", z.optional (z.enum ["left", "right", "middle"])),
      ("clickCount", z.optional z.number),
      ("delay", z.optional z.number),
      ("position", z.optional (z.object [("x", z.number), ("y", z.number)])),
      ("modifiers", z.optional (z.array (z.enum ["Alt", "Control", "Meta", "Shift"]))),
      ("force", z.optional z.boolean),
      ("noWaitAfter", z.optional z.boolean),
      ("trial", z.optional z.boolean),
      ("timeout", z.optional z.number)]))]

/-- The schema `TypeSchema`. -/
def TypeSchema : ZodType :=
  z.object [
    ("selector", z.string),
    ("text", z.string),
    ("options", z.optional delayOptions)]

/-- The schema `WaitForSelectorSchema`. -/
def WaitForSelectorSchema : ZodType :=
  z.object [
    ("selector", z.string),
    ("options", z.optional (z.object [
      ("state", z.optional (z.enum ["attached", "detached", "visible", "hidden"])),
      ("timeout", z.optional z.number)]))]

/-- The schema `GetTextSchema`. -/
def GetTextSchema : ZodType :=
  z.object [("selector", z.string)]

/-- The schema `GetAttributeSchema`. -/
def GetAttributeSchema : ZodType :=
  z.object [("selector", z.string), ("attribute", z.string)]

/-- The schema `EvaluateSchema`. -/
def EvaluateSchema : ZodType :=
  z.object [("expression", z.string)]

/-- The schema `ScreenshotSchema`. -/
def ScreenshotSchema : ZodType :=
  z.object [
    ("options", z.optional (z.object [
      ("path", z.optional z.string),
      ("type", z.optional (z.enum ["png", "jpeg"])),
      ("quality", z.optional (z.numberMinMax 0 100)),
      ("fullPage", z.optional z.boolean),
      ("clip", z.optional (z.object [
        ("x", z.number), ("y", z.number), ("width", z.number), ("height", z.number)])),
      ("omitBackground", z.optional z.boolean)]))]

/-- The schema `FillSchema`. -/
def FillSchema : ZodType :=
  z.object [
    ("selector", z.string),
    ("value", z.string),
    ("options", z.optional forceOptions)]

/-- The schema `SelectOptionSchema`. -/
def SelectOptionSchema : ZodType :=
  z.object [
    ("selector", z.string),
    ("values", z.union z.string (z.array z.string)),
    ("options", z.optional forceOptions)]

/-- The schema `ScrollSchema`. -/
def ScrollSchema : ZodType :=
  z.object [
    ("selector", z.optional z.string),
    ("options", z.optional (z.object [
      ("x", z.optional z.number),
      ("y", z.optional z.number),
      ("behavior", z.optional (z.enum ["auto", "smooth"]))]))]

/-- The schema `PressKeySchema`. -/
def PressKeySchema : ZodType :=
  z.object [
    ("selector", z.string),
    ("key", z.string),
    ("options", z.optional delayOptions)]

/-- The schema `GetPageInfoSchema`. -/
def GetPageInfoSchema : ZodType :=
  z.object []

/-- The schema `WaitForLoadStateSchema`. -/
def WaitForLoadStateSchema : ZodType :=
  z.object [
    ("state", z.default (z.enum ["load", "domcontentloaded", "networkidle"]) (.str "load")),
    ("options", z.optional (z.object [("timeout", z.optional z.number)]))]

/-- The schema `GoBackSchema`. -/
def GoBackSchema : ZodType :=
  z.object [("options", z.optional historyOptions)]

/-- The schema `GoForwardSchema`. -/
def GoForwardSchema : ZodType :=
  z.object [("options", z.optional historyOptions)]

/-- The schema `ReloadSchema`. -/
def ReloadSchema : ZodType :=
  z.object [("options", z.optional historyOptions)]

/-! ## Errors and results -/

/-- The error codes of the MCP SDK that the server uses. -/
inductive ErrorCode where
  | InvalidRequest | MethodNotFound | InternalError
  deriving DecidableEq, Repr

/-- What a handler can throw: an `McpError` built from a code and a text, the
`ZodError` of a failed `parse`, or whatever the engine throws, kept as the text
the dispatcher reads off it (`error.message`, or `String(error)`). -/
inductive Thrown where
  | mcp (code : ErrorCode) (text : String)
  | zod (issues : List ZodIssue)
  | engine (message : String)
  deriving DecidableEq

deriving instance DecidableEq for Except

/-- The error the dispatcher hands to the transport. -/
structure McpError where
  code : ErrorCode
  message : String
  deriving DecidableEq

/-- One item of a tool result's `content`. -/
structure TextContent where
  type : String
  text : String
  deriving DecidableEq

/-- The success payload of a tool call. -/
structure ToolResult where
  content : List TextContent
  deriving DecidableEq

/-- The result `{ content: [{ type: 'text', text }] }`. -/
def textResult (text : String) : ToolResult := ⟨[⟨"text", text⟩]⟩

/-- What the JavaScript runtime and the libraries do that the source only
calls: `new URL(s)` succeeding (used by `z.string().url()`), `String(n)` on a
number, `JSON.stringify` inside a template literal, the `message` property of
an `McpError` built from a code and a text, and of a `ZodError`. -/
structure Env where
  validUrl : String → Bool
  showNum : ℚ → String
  stringify : JVal → String
  mcpMessage : ErrorCode → String → String
  zodMessage : List ZodIssue → String

/-- The text `error instanceof Error ? error.message : String(error)`. -/
def Thrown.message (env : Env) : Thrown → String
  | .mcp code text => env.mcpMessage code text
  | .zod issues => env.zodMessage issues
  | .engine message => message

namespace JVal

mutual
/-- A value inside a template literal: JavaScript's `String(v)`. -/
def toStr (showNum : ℚ → String) : JVal → String
  | undefined => "undefined"
  | null => "null"
  | bool true => "true"
  | bool false => "false"
  | num q => showNum q
  | str s => s
  | arr xs => joinStr showNum xs
  | obj _ => "[object Object]"
/-- The elements of an array joined by commas, `null` and `undefined` as the
empty string: `Array.prototype.join`. -/
def joinStr (showNum : ℚ → String) : List JVal → String
  | [] => ""
  | [undefined] => ""
  | [null] => ""
  | [x] => toStr showNum x
  | undefined :: xs => "," ++ joinStr showNum xs
  | null :: xs => "," ++ joinStr showNum xs
  | x :: xs => toStr showNum x ++ "," ++ joinStr showNum xs
end

end JVal

/-! ## The engine and the world -/

/-- The three browser engines of playwright. -/
inductive BrowserEngine where
  | chromium | firefox | webkit
  deriving DecidableEq, Repr

/-- The page operations whose result the handlers do not read. -/
inductive PageOp where
  | goto (url : JVal)
  | click (selector options : JVal)
  | type (selector text options : JVal)
  | waitForSelector (selector options : JVal)
  | fill (selector value options : JVal)
  | selectOption (selector values options : JVal)
  | scrollIntoViewIfNeeded (selector : JVal)
  | scrollTo (options : JVal)
  | press (selector key options : JVal)
  | waitForLoadState (state options : JVal)
  | goBack (options : JVal)
  | goForward (options : JVal)
  | reload (options : JVal)

/-- A call the server makes on the engine; browsers, contexts and pages are
named by the numbers the engine gave them. -/
inductive Action where
  | close (browser : Nat)
  | launch (engine : BrowserEngine) (headless : JVal)
  | newContext (browser : Nat)
  | newPage (context : Nat)
  | page (page : Nat) (op : PageOp)
  | textContent (page : Nat) (selector : JVal)
  | getAttribute (page : Nat) (selector attr : JVal)
  | evaluate (page : Nat) (expression : JVal)
  | screenshot (page : Nat) (options : JVal)
  | url (page : Nat)
  | title (page : Nat)

/-- How an engine call ended. -/
inductive Reply where
  | failed (message : String)
  | done
  | handle (id : Nat)
  | text (t : Option String)
  | value (v : JVal)
  | bytes (length : Nat)
  | str (s : String)

/-- A completed engine call: the awaited promise has settled. -/
structure Event where
  action : Action
  reply : Reply

/-- The history of completed engine calls, oldest first. -/
abbrev Trace := List Event

/-- The engine: how it answers each call, given the calls completed so far.
`Except.error m` is a rejected promise whose error reads as `m`. -/
structure Engine where
  close : Trace → Nat → Except String Unit
  launch : Trace → BrowserEngine → JVal → Except String Nat
  newContext : Trace → Nat → Except String Nat
  newPage : Trace → Nat → Except String Nat
  pageOp : Trace → Nat → PageOp → Except String Unit
  textContent : Trace → Nat → JVal → Except String (Option String)
  getAttribute : Trace → Nat → JVal → JVal → Except String (Option String)
  evaluate : Trace → Nat → JVal → Except String JVal
  screenshot : Trace → Nat → JVal → Except String Nat
  url : Trace → Nat → String
  title : Trace → Nat → Except String String

/-- The fields `browser`, `context` and `page` of `PlaywrightMCPServer`. -/
structure Session where
  browser : Option Nat
  context : Option Nat
  page : Option Nat
  deriving DecidableEq, Repr

/-- The session the constructor leaves: all three fields `null`. -/
def Session.empty : Session := ⟨none, none, none⟩

/-- The server's fields and the engine calls completed so far. -/
structure World where
  session : Session
  trace : Trace

/-- The world at process start. -/
def World.init : World := ⟨Session.empty, []⟩

/-- A handler: it ends in a value or a throw, and in both cases leaves a world. -/
def M (α : Type) : Type := World → Except Thrown α × World

namespace M

/-- Returning a value. -/
def ret {α : Type} (a : α) : M α := fun w => (.ok a, w)

/-- Sequencing: a throw skips the rest and keeps the world reached. -/
def andThen {α β : Type} (m : M α) (f : α → M β) : M β := fun w =>
  match m w with
  | (.ok a, w') => f a w'
  | (.error e, w') => (.error e, w')

instance : Monad M where
  pure := ret
  bind := andThen

/-- The statement `throw e`. -/
def throw {α : Type} (e : Thrown) : M α := fun w => (.error e, w)

/-- Reading the server's fields. -/
def getSession : M Session := fun w => (.ok w.session, w)

/-- The assignment `this.browser = b`. -/
def setBrowser (b : Option Nat) : M Unit := fun w =>
  (.ok (), { w with session := { w.session with browser := b } })

/-- The assignment `this.context = c`. -/
def setContext (c : Option Nat) : M Unit := fun w =>
  (.ok (), { w with session := { w.session with context := c } })

/-- The assignment `this.page = p`. -/
def setPage (p : Option Nat) : M Unit := fun w =>
  (.ok (), { w with session := { w.session with page := p } })

/-- The call `Schema.parse(v)`: a failure throws the `ZodError`. -/
def parse (schema : ZodType) (v : JVal) : M JVal := fun w =>
  match schema v with
  | .ok parsed => (.ok parsed, w)
  | .error issues => (.error (.zod issues), w)

/-- Awaiting an engine call: the call and its outcome join the history; a
rejection is thrown. -/
def await {α : Type} (action : Action) (answer : Trace → Except String α)
    (reply : α → Reply) : M α := fun w =>
  match answer w.trace with
  | .ok a => (.ok a, { w with trace := w.trace ++ [⟨action, reply a⟩] })
  | .error m => (.error (.engine m), { w with trace := w.trace ++ [⟨action, .failed m⟩] })

end M

/-! ## The handlers -/

/-- The text of the error `ensurePage` throws. -/
def noSessionText : String := "No active browser session. Please navigate to a URL first."

/-- The method `ensurePage`. -/
def ensurePage : M Nat := do
  let s ← M.getSession
  match s.page with
  | none => M.throw (.mcp .InvalidRequest noSessionText)
  | some page => pure page

/-- The statement `if (this.browser) { await this.browser.close(); }`. -/
def closeIfOpen (eng : Engine) : M Unit := do
  let s ← M.getSession
  match s.browser with
  | some old => M.await (.close old) (fun t => eng.close t old) (fun _ => .done)
  | none => pure ()

/-- The `switch (browserType)` that picks the engine to launch. -/
def browserEngineOf (browserType : JVal) : BrowserEngine :=
  match browserType with
  | .str "firefox" => .firefox
  | .str "webkit" => .webkit
  | _ => .chromium

/-- The method `handleNavigate`. -/
def handleNavigate (env : Env) (eng : Engine) (args : JVal) : M ToolResult := do
  let parsed ← M.parse (NavigateSchema env.validUrl) args
  let url := parsed.get "url"
  let browserType := parsed.get "browser"
  let headless := parsed.get "headless"
  closeIfOpen eng
  let browserEngine := browserEngineOf browserType
  let browser ← M.await (.launch browserEngine headless)
    (fun t => eng.launch t browserEngine headless) .handle
  M.setBrowser (some browser)
  let context ← M.await (.newContext browser) (fun t => eng.newContext t browser) .handle
  M.setContext (some context)
  let page ← M.await (.newPage context) (fun t => eng.newPage t context) .handle
  M.setPage (some page)
  M.await (.page page (.goto url)) (fun t => eng.pageOp t page (.goto url)) (fun _ => .done)
  pure (textResult ("Successfully navigated to " ++ url.toStr env.showNum ++ " using "
    ++ browserType.toStr env.showNum
    ++ (if headless.truthy then " (headless)" else " (headed)")))

/-- Awaiting a page operation whose result is not read. -/
def pageDo (eng : Engine) (page : Nat) (op : PageOp) : M Unit :=
  M.await (.page page op) (fun t => eng.pageOp t page op) (fun _ => .done)

/-- The method `handleClick`. -/
def handleClick (env : Env) (eng : Engine) (args : JVal) : M ToolResult := do
  let parsed ← M.parse ClickSchema args
  let selector := parsed.get "selector"
  let options := parsed.get "options"
  let page ← ensurePage
  pageDo eng page (.click selector options)
  pure (textResult ("Successfully clicked on element: " ++ selector.toStr env.showNum))

/-- The method `handleType`. -/
def handleType (env : Env) (eng : Engine) (args : JVal) : M ToolResult := do
  let parsed ← M.parse TypeSchema args
  let selector := parsed.get "selector"
  let text := parsed.get "text"
  let options := parsed.get "options"
  let page ← ensurePage
  pageDo eng page (.type selector text options)
  pure (textResult ("Successfully typed \"" ++ text.toStr env.showNum
    ++ "\" into element: " ++ selector.toStr env.showNum))

/-- The method `handleWaitForSelector`. -/
def handleWaitForSelector (env : Env) (eng : Engine) (args : JVal) : M ToolResult := do
  let parsed ← M.parse WaitForSelectorSchema args
  let selector := parsed.get "selector"
  let options := parsed.get "options"
  let page ← ensurePage
  pageDo eng page (.waitForSelector selector (options.orElse (.obj [])))
  pure (textResult ("Successfully waited for selector: " ++ selector.toStr env.showNum))

/-- The text of `${v || d}` where `v` is a string or `null`. -/
def orText (v : Option String) (d : String) : String :=
  match v with
  | some s => if s ≠ "" then s else d
  | none => d

/-- The method `handleGetText`. -/
def handleGetText (env : Env) (eng : Engine) (args : JVal) : M ToolResult := do
  let parsed ← M.parse GetTextSchema args
  let selector := parsed.get "selector"
  let page ← ensurePage
  let text ← M.await (.textContent page selector)
    (fun t => eng.textContent t page selector) .text
  pure (textResult ("Text content of " ++ selector.toStr env.showNum ++ ": "
    ++ orText text "(empty)"))

/-- The method `handleGetAttribute`. -/
def handleGetAttribute (env : Env) (eng : Engine) (args : JVal) : M ToolResult := do
  let parsed ← M.parse GetAttributeSchema args
  let selector := parsed.get "selector"
  let attr := parsed.get "attribute"
  let page ← ensurePage
  let value ← M.await (.getAttribute page selector attr)
    (fun t => eng.getAttribute t page selector attr) .text
  pure (textResult ("Attribute \"" ++ attr.toStr env.showNum ++ "\" of "
    ++ selector.toStr env.showNum ++ ": " ++ orText value "(not found)"))

/-- The method `handleEvaluate`. -/
def handleEvaluate (env : Env) (eng : Engine) (args : JVal) : M ToolResult := do
  let parsed ← M.parse EvaluateSchema args
  let expression := parsed.get "expression"
  let page ← ensurePage
  let result ← M.await (.evaluate page expression)
    (fun t => eng.evaluate t page expression) .value
  pure (textResult ("Evaluation result: " ++ env.stringify result))

/-- The method `handleScreenshot`. -/
def handleScreenshot (env : Env) (eng : Engine) (args : JVal) : M ToolResult := do
  let parsed ← M.parse ScreenshotSchema (args.orElse (.obj []))
  let options := parsed.get "options"
  let page ← ensurePage
  let screenshot ← M.await (.screenshot page options)
    (fun t => eng.screenshot t page options) .bytes
  if (options.get "path").truthy then
    pure (textResult ("Screenshot saved to: " ++ (options.get "path").toStr env.showNum))
  else
    pure (textResult ("Screenshot taken (" ++ toString screenshot ++ " bytes)"))

/-- The method `handleFill`. -/
def handleFill (env : Env) (eng : Engine) (args : JVal) : M ToolResult := do
  let parsed ← M.parse FillSchema args
  let selector := parsed.get "selector"
  let value := parsed.get "value"
  let options := parsed.get "options"
  let page ← ensurePage
  pageDo eng page (.fill selector value options)
  pure (textResult ("Successfully filled \"" ++ value.toStr env.showNum
    ++ "\" into element: " ++ selector.toStr env.showNum))

/-- The method `handleSelectOption`. -/
def handleSelectOption (env : Env) (eng : Engine) (args : JVal) : M ToolResult := do
  let parsed ← M.parse SelectOptionSchema args
  let selector := parsed.get "selector"
  let values := parsed.get "values"
  let options := parsed.get "options"
  let page ← ensurePage
  pageDo eng page (.selectOption selector values options)
  pure (textResult ("Successfully selected option(s) " ++ env.stringify values
    ++ " in element: " ++ selector.toStr env.showNum))

/-- The method `handleScroll`. -/
def handleScroll (env : Env) (eng : Engine) (args : JVal) : M ToolResult := do
  let parsed ← M.parse ScrollSchema (args.orElse (.obj []))
  let selector := parsed.get "selector"
  let options := parsed.get "options"
  let page ← ensurePage
  if selector.truthy then
    pageDo eng page (.scrollIntoViewIfNeeded selector)
  else if (options.get "x").isDefined || (options.get "y").isDefined then
    pageDo eng page (.scrollTo options)
  else
    pure ()
  pure (textResult (
    if selector.truthy then
      "Successfully scrolled to element: " ++ selector.toStr env.showNum
    else
      "Successfully scrolled page to position ("
        ++ ((options.get "x").orElse (.num 0)).toStr env.showNum ++ ", "
        ++ ((options.get "y").orElse (.num 0)).toStr env.showNum ++ ")"))

/-- The method `handlePressKey`. -/
def handlePressKey (env : Env) (eng : Engine) (args : JVal) : M ToolResult := do
  let parsed ← M.parse PressKeySchema args
  let selector := parsed.get "selector"
  let key := parsed.get "key"
  let options := parsed.get "options"
  let page ← ensurePage
  pageDo eng page (.press selector key options)
  pure (textResult ("Successfully pressed key \"" ++ key.toStr env.showNum
    ++ "\" on element: " ++ selector.toStr env.showNum))

/-- The method `handleGetPageInfo`. -/
def handleGetPageInfo (eng : Engine) (args : JVal) : M ToolResult := do
  let _ ← M.parse GetPageInfoSchema (args.orElse (.obj []))
  let page ← ensurePage
  let url ← M.await (.url page) (fun t => .ok (eng.url t page)) .str
  let title ← M.await (.title page) (fun t => eng.title t page) .str
  pure (textResult ("Page Info:\nURL: " ++ url ++ "\nTitle: " ++ title))

/-- The method `handleWaitForLoadState`. -/
def handleWaitForLoadState (env : Env) (eng : Engine) (args : JVal) : M ToolResult := do
  let parsed ← M.parse WaitForLoadStateSchema (args.orElse (.obj []))
  let state := parsed.get "state"
  let options := parsed.get "options"
  let page ← ensurePage
  pageDo eng page (.waitForLoadState state options)
  pure (textResult ("Successfully waited for load state: " ++ state.toStr env.showNum))

/-- The method `handleGoBack`. -/
def handleGoBack (eng : Engine) (args : JVal) : M ToolResult := do
  let parsed ← M.parse GoBackSchema (args.orElse (.obj []))
  let options := parsed.get "options"
  let page ← ensurePage
  pageDo eng page (.goBack options)
  pure (textResult "Successfully navigated back")

/-- The method `handleGoForward`. -/
def handleGoForward (eng : Engine) (args : JVal) : M ToolResult := do
  let parsed ← M.parse GoForwardSchema (args.orElse (.obj []))
  let options := parsed.get "options"
  let page ← ensurePage
  pageDo eng page (.goForward options)
  pure (textResult "Successfully navigated forward")

/-- The method `handleReload`. -/
def handleReload (eng : Engine) (args : JVal) : M ToolResult := do
  let parsed ← M.parse ReloadSchema (args.orElse (.obj []))
  let options := parsed.get "options"
  let page ← ensurePage
  pageDo eng page (.reload options)
  pure (textResult "Successfully reloaded page")

/-- The method `handleCloseBrowser`. -/
def handleCloseBrowser (eng : Engine) : M ToolResult := do
  let s ← M.getSession
  match s.browser with
  | some browser =>
    M.await (.close browser) (fun t => eng.close t browser) (fun _ => .done)
    M.setBrowser none
    M.setContext none
    M.setPage none
  | none => pure ()
  pure (textResult "Browser closed successfully")

/-! ## The dispatcher -/

/-- One entry of the answer to "list tools". -/
structure ToolDefinition where
  name : String
  description : String
  inputSchema : JVal

/-- The answer of the "list tools" request handler: the tools it announces,
in its order, each with its description and its JSON schema. -/
def listTools : List ToolDefinition := [
  { name := "navigate",
    description := "Navigate to a URL in the browser",
    inputSchema := .obj [
      ("type", .str "object"),
      ("properties", .obj [
        ("url", .obj [
          ("type", .str "string"),
          ("format", .str "uri"),
          ("description", .str "URL to navigate to")]),
        ("browser", .obj [
          ("type", .str "string"),
          ("enum", .arr [.str "chromium", .str "firefox", .str "webkit"]),
          ("default", .str "chromium"),
          ("description", .str "Browser engine to use")]),
        ("headless", .obj [
          ("type", .str "boolean"),
          ("default", .bool true),
          ("description", .str "Run browser in headless mode")])]),
      ("required", .arr [.str "url"])] },
  { name := "click",
    description := "Click on an element specified by selector",
    inputSchema := .obj [
      ("type", .str "object"),
      ("properties", .obj [
        ("selector", .obj [("type", .str "string"), ("description", .str "CSS selector or text selector")]),
        ("options", .obj [
          ("type", .str "object"),
          ("properties", .obj [
            ("button", .obj [
              ("type", .str "string"),
              ("enum", .arr [.str "left", .str "right", .str "middle"])]),
            ("clickCount", .obj [("type", .str "number")]),
            ("delay", .obj [("type", .str "number")]),
            ("position", .obj [
              ("type", .str "object"),
              ("properties", .obj [
                ("x", .obj [("type", .str "number")]),
                ("y", .obj [("type", .str "number")])])]),
            ("modifiers", .obj [
              ("type", .str "array"),
              ("items", .obj [
                ("type", .str "string"),
                ("enum", .arr [.str "Alt", .str "Control", .str "Meta", .str "Shift"])])]),
            ("force", .obj [("type", .str "boolean")]),
            ("noWaitAfter", .obj [("type", .str "boolean")]),
            ("trial", .obj [("type", .str "boolean")]),
            ("timeout", .obj [("type", .str "number")])])])]),
      ("required", .arr [.str "selector"])] },
  { name := "type",
    description := "Type text into an input element",
    inputSchema := .obj [
      ("type", .str "object"),
      ("properties", .obj [
        ("selector", .obj [
          ("type", .str "string"),
          ("description", .str "CSS selector for the input element")]),
        ("text", .obj [("type", .str "string"), ("description", .str "Text to type")]),
        ("options", .obj [
          ("type", .str "object"),
          ("properties", .obj [
            ("delay", .obj [("type", .str "number")]),
            ("noWaitAfter", .obj [("type", .str "boolean")]),
            ("timeout", .obj [("type", .str "number")])])])]),
      ("required", .arr [.str "selector", .str "text"])] },
  { name := "wait_for_selector",
    description := "Wait for an element to appear/disappear",
    inputSchema := .obj [
      ("type", .str "object"),
      ("properties", .obj [
        ("selector", .obj [("type", .str "string"), ("description", .str "CSS selector to wait for")]),
        ("options", .obj [
          ("type", .str "object"),
          ("properties", .obj [
            ("state", .obj [
              ("type", .str "string"),
              ("enum", .arr [.str "attached", .str "detached", .str "visible", .str "hidden"])]),
            ("timeout", .obj [("type", .str "number")])])])]),
      ("required", .arr [.str "selector"])] },
  { name := "get_text",
    description := "Get text content of an element",
    inputSchema := .obj [
      ("type", .str "object"),
      ("properties", .obj [
        ("selector", .obj [("type", .str "string"), ("description", .str "CSS selector of the element")])]),
      ("required", .arr [.str "selector"])] },
  { name := "get_attribute",
    description := "Get attribute value of an element",
    inputSchema := .obj [
      ("type", .str "object"),
      ("properties", .obj [
        ("selector", .obj [("type", .str "string"), ("description", .str "CSS selector of the element")]),
        ("attribute", .obj [("type", .str "string"), ("description", .str "Attribute name to get")])]),
      ("required", .arr [.str "selector", .str "attribute"])] },
  { name := "evaluate",
    description := "Execute JavaScript in the page context",
    inputSchema := .obj [
      ("type", .str "object"),
      ("properties", .obj [
        ("expression", .obj [
          ("type", .str "string"),
          ("description", .str "JavaScript expression to evaluate")])]),
      ("required", .arr [.str "expression"])] },
  { name := "screenshot",
    description := "Take a screenshot of the page",
    inputSchema := .obj [
      ("type", .str "object"),
      ("properties", .obj [
        ("options", .obj [
          ("type", .str "object"),
          ("properties", .obj [
            ("path", .obj [("type", .str "string"), ("description", .str "Path to save the screenshot")]),
            ("type", .obj [("type", .str "string"), ("enum", .arr [.str "png", .str "jpeg"])]),
            ("quality", .obj [("type", .str "number"), ("minimum", .num 0), ("maximum", .num 100)]),
            ("fullPage", .obj [("type", .str "boolean")]),
            ("clip", .obj [
              ("type", .str "object"),
              ("properties", .obj [
                ("x", .obj [("type", .str "number")]),
                ("y", .obj [("type", .str "number")]),
                ("width", .obj [("type", .str "number")]),
                ("height", .obj [("type", .str "number")])]),
              ("required", .arr [.str "x", .str "y", .str "width", .str "height"])]),
            ("omitBackground", .obj [("type", .str "boolean")])])])])] },
  { name := "fill",
    description := "Fill an input field with text (better than type for forms)",
    inputSchema := .obj [
      ("type", .str "object"),
      ("properties", .obj [
        ("selector", .obj [
          ("type", .str "string"),
          ("description", .str "CSS selector for the input element")]),
        ("value", .obj [("type", .str "string"), ("description", .str "Value to fill")]),
        ("options", .obj [
          ("type", .str "object"),
          ("properties", .obj [
            ("force", .obj [("type", .str "boolean")]),
            ("noWaitAfter", .obj [("type", .str "boolean")]),
            ("timeout", .obj [("type", .str "number")])])])]),
      ("required", .arr [.str "selector", .str "value"])] },
  { name := "select_option",
    description := "Select option(s) in a select element",
    inputSchema := .obj [
      ("type", .str "object"),
      ("properties", .obj [
        ("selector", .obj [
          ("type", .str "string"),
          ("description", .str "CSS selector for the select element")]),
        ("values", .obj [
          ("oneOf", .arr [
            .obj [("type", .str "string")],
            .obj [("type", .str "array"), ("items", .obj [("type", .str "string")])]]),
          ("description", .str "Option value(s) to select")]),
        ("options", .obj [
          ("type", .str "object"),
          ("properties", .obj [
            ("force", .obj [("type", .str "boolean")]),
            ("noWaitAfter", .obj [("type", .str "boolean")]),
            ("timeout", .obj [("type", .str "number")])])])]),
      ("required", .arr [.str "selector", .str "values"])] },
  { name := "scroll",
    description := "Scroll the page or an element",
    inputSchema := .obj [
      ("type", .str "object"),
      ("properties", .obj [
        ("selector", .obj [
          ("type", .str "string"),
          ("description", .str "CSS selector of element to scroll (optional, scrolls page if not provided)")]),
        ("options", .obj [
          ("type", .str "object"),
          ("properties", .obj [
            ("x", .obj [("type", .str "number"), ("description", .str "Horizontal scroll position")]),
            ("y", .obj [("type", .str "number"), ("description", .str "Vertical scroll position")]),
            ("behavior", .obj [("type", .str "string"), ("enum", .arr [.str "auto", .str "smooth"])])])])])] },
  { name := "press_key",
    description := "Press a keyboard key on an element",
    inputSchema := .obj [
      ("type", .str "object"),
      ("properties", .obj [
        ("selector", .obj [("type", .str "string"), ("description", .str "CSS selector of the element")]),
        ("key", .obj [
          ("type", .str "string"),
          ("description", .str "Key to press (e.g., \"Enter\", \"Tab\", \"Escape\")")]),
        ("options", .obj [
          ("type", .str "object"),
          ("properties", .obj [
            ("delay", .obj [("type", .str "number")]),
            ("noWaitAfter", .obj [("type", .str "boolean")]),
            ("timeout", .obj [("type", .str "number")])])])]),
      ("required", .arr [.str "selector", .str "key"])] },
  { name := "get_page_info",
    description := "Get current page information (URL, title, etc.)",
    inputSchema := .obj [("type", .str "object"), ("properties", .obj [])] },
  { name := "wait_for_load_state",
    description := "Wait for page to reach a specific load state",
    inputSchema := .obj [
      ("type", .str "object"),
      ("properties", .obj [
        ("state", .obj [
          ("type", .str "string"),
          ("enum", .arr [.str "load", .str "domcontentloaded", .str "networkidle"]),
          ("default", .str "load"),
          ("description", .str "Load state to wait for")]),
        ("options", .obj [
          ("type", .str "object"),
          ("properties", .obj [("timeout", .obj [("type", .str "number")])])])])] },
  { name := "go_back",
    description := "Navigate back in browser history",
    inputSchema := .obj [
      ("type", .str "object"),
      ("properties", .obj [
        ("options", .obj [
          ("type", .str "object"),
          ("properties", .obj [
            ("timeout", .obj [("type", .str "number")]),
            ("waitUntil", .obj [
              ("type", .str "string"),
              ("enum", .arr [.str "load", .str "domcontentloaded", .str "networkidle", .str "commit"])])])])])] },
  { name := "go_forward",
    description := "Navigate forward in browser history",
    inputSchema := .obj [
      ("type", .str "object"),
      ("properties", .obj [
        ("options", .obj [
          ("type", .str "object"),
          ("properties", .obj [
            ("timeout", .obj [("type", .str "number")]),
            ("waitUntil", .obj [
              ("type", .str "string"),
              ("enum", .arr [.str "load", .str "domcontentloaded", .str "networkidle", .str "commit"])])])])])] },
  { name := "reload",
    description := "Reload/refresh the current page",
    inputSchema := .obj [
      ("type", .str "object"),
      ("properties", .obj [
        ("options", .obj [
          ("type", .str "object"),
          ("properties", .obj [
            ("timeout", .obj [("type", .str "number")]),
            ("waitUntil", .obj [
              ("type", .str "string"),
              ("enum", .arr [.str "load", .str "domcontentloaded", .str "networkidle", .str "commit"])])])])])] },
  { name := "close_browser",
    description := "Close the browser and cleanup resources",
    inputSchema := .obj [("type", .str "object"), ("properties", .obj [])] }]

/-- The names of the tools the "list tools" handler announces, in its order. -/
def toolNames : List String :=
  ["navigate", "click", "type", "wait_for_selector", "get_text", "get_attribute",
   "evaluate", "screenshot", "fill", "select_option", "scroll", "press_key",
   "get_page_info", "wait_for_load_state", "go_back", "go_forward", "reload",
   "close_browser"]

/-- The `switch (name)` inside the `try` of the "call tool" handler. -/
def toolSwitch (env : Env) (eng : Engine) (name : String) (args : JVal) : M ToolResult :=
  match name with
  | "navigate" => handleNavigate env eng args
  | "click" => handleClick env eng args
  | "type" => handleType env eng args
  | "wait_for_selector" => handleWaitForSelector env eng args
  | "get_text" => handleGetText env eng args
  | "get_attribute" => handleGetAttribute env eng args
  | "evaluate" => handleEvaluate env eng args
  | "screenshot" => handleScreenshot env eng args
  | "fill" => handleFill env eng args
  | "select_option" => handleSelectOption env eng args
  | "scroll" => handleScroll env eng args
  | "press_key" => handlePressKey env eng args
  | "get_page_info" => handleGetPageInfo eng args
  | "wait_for_load_state" => handleWaitForLoadState env eng args
  | "go_back" => handleGoBack eng args
  | "go_forward" => handleGoForward eng args
  | "reload" => handleReload eng args
  | "close_browser" => handleCloseBrowser eng
  | _ => M.throw (.mcp .MethodNotFound ("Unknown tool: " ++ name))

/-- The "call tool" request handler: the `switch` under its `try`/`catch`.
Whatever is thrown inside comes out as one `McpError` with the code
`InternalError`. -/
def callTool (env : Env) (eng : Engine) (name : String) (args : JVal) (w : World) :
    Except McpError ToolResult × World :=
  match toolSwitch env eng name args w with
  | (.ok result, w') => (.ok result, w')
  | (.error e, w') =>
    (.error ⟨.InternalError, "Tool execution failed: " ++ e.message env⟩, w')

/-- One request of a run: the tool's name and its raw arguments. -/
structure ToolCall where
  name : String
  rawArguments : JVal

/-- The world after a request. -/
def step (env : Env) (eng : Engine) (w : World) (c : ToolCall) : World :=
  (callTool env eng c.name c.rawArguments w).2

/-- The world after a sequence of requests, served one after the other. -/
def run (env : Env) (eng : Engine) (w : World) (calls : List ToolCall) : World :=
  calls.foldl (step env eng) w

/-! ## Notions used to state the properties -/

/-- Whether the arguments pass the `parse` that opens the tool's handler;
`close_browser` parses nothing. -/
def validArguments (env : Env) (name : String) (args : JVal) : Bool :=
  match name with
  | "navigate" => (NavigateSchema env.validUrl args).isOk
  | "click" => (ClickSchema args).isOk
  | "type" => (TypeSchema args).isOk
  | "wait_for_selector" => (WaitForSelectorSchema args).isOk
  | "get_text" => (GetTextSchema args).isOk
  | "get_attribute" => (GetAttributeSchema args).isOk
  | "evaluate" => (EvaluateSchema args).isOk
  | "screenshot" => (ScreenshotSchema (args.orElse (.obj []))).isOk
  | "fill" => (FillSchema args).isOk
  | "select_option" => (SelectOptionSchema args).isOk
  | "scroll" => (ScrollSchema (args.orElse (.obj []))).isOk
  | "press_key" => (PressKeySchema args).isOk
  | "get_page_info" => (GetPageInfoSchema (args.orElse (.obj []))).isOk
  | "wait_for_load_state" => (WaitForLoadStateSchema (args.orElse (.obj []))).isOk
  | "go_back" => (GoBackSchema (args.orElse (.obj []))).isOk
  | "go_forward" => (GoForwardSchema (args.orElse (.obj []))).isOk
  | "reload" => (ReloadSchema (args.orElse (.obj []))).isOk
  | "close_browser" => true
  | _ => false

/-- The error `ensurePage` throws, as thrown. -/
def noSessionError : Thrown := .mcp .InvalidRequest noSessionText

/-- The engine calls that build a session: launch, new context, new page. -/
def Action.startsSession : Action → Bool
  | .launch _ _ => true
  | .newContext _ => true
  | .newPage _ => true
  | _ => false

/-- The effect of one completed engine call on the browsers that are running:
a launch that returned adds its browser, a close that returned removes it. -/
def updateLive (live : List Nat) (e : Event) : List Nat :=
  match e with
  | ⟨.launch _ _, .handle b⟩ => live ++ [b]
  | ⟨.close b, .done⟩ => live.erase b
  | _ => live

/-- The browsers running after a history of engine calls. -/
def liveBrowsers (t : Trace) : List Nat := t.foldl updateLive []

/-- The handles are nested: a page only with a context, a context only with a browser. -/
def Session.Nested (s : Session) : Prop :=
  (s.page.isSome = true → s.context.isSome = true) ∧
  (s.context.isSome = true → s.browser.isSome = true)

/-- An engine none of whose calls fails. -/
structure Engine.Succeeds (eng : Engine) : Prop where
  close : ∀ t b, (eng.close t b).isOk = true
  launch : ∀ t e headless, (eng.launch t e headless).isOk = true
  newContext : ∀ t b, (eng.newContext t b).isOk = true
  newPage : ∀ t c, (eng.newPage t c).isOk = true
  pageOp : ∀ t p op, (eng.pageOp t p op).isOk = true
  textContent : ∀ t p selector, (eng.textContent t p selector).isOk = true
  getAttribute : ∀ t p selector attr, (eng.getAttribute t p selector attr).isOk = true
  evaluate : ∀ t p expression, (eng.evaluate t p expression).isOk = true
  screenshot : ∀ t p options, (eng.screenshot t p options).isOk = true
  title : ∀ t p, (eng.title t p).isOk = true

/-- A handler that never assigns the server's fields. -/
def M.Frame {α : Type} (m : M α) : Prop := ∀ w, (m w).2.session = w.session

/-- The common form of the handlers that need a page: parse the arguments,
get the page from `ensurePage`, then run the rest. -/
def M.guarded {α : Type} (schema : ZodType) (input : JVal) (body : JVal → Nat → M α) : M α :=
  M.andThen (M.parse schema input) fun parsed => M.andThen ensurePage fun page => body parsed page

/-- A computation whose only throws are rejections of engine calls. -/
def M.EngineOnly {α : Type} (m : M α) : Prop :=
  ∀ w e w', m w = (.error e, w') → ∃ message, e = .engine message

/-- The history once the statement `if (this.browser) await this.browser.close()`
has completed: the close of the held browser, if there is one, has joined it. -/
def closedTrace (w : World) : Trace :=
  match w.session.browser with
  | some old => w.trace ++ [⟨.close old, .done⟩]
  | none => w.trace

/-! ## Test doubles -/

/-- A runtime for examples: every non-empty string is a URL, an `McpError`
reads "MCP error: " and its text. -/
def testEnv : Env where
  validUrl := fun s => s ≠ ""
  showNum := fun q => toString q.num
  stringify := fun _ => "null"
  mcpMessage := fun _ text => "MCP error: " ++ text
  zodMessage := fun _ => "invalid arguments"

/-- An engine on which every call succeeds; each new browser, context and page
is numbered by the count of engine calls before it. -/
def okEngine : Engine where
  close := fun _ _ => .ok ()
  launch := fun t _ _ => .ok t.length
  newContext := fun t _ => .ok t.length
  newPage := fun t _ => .ok t.length
  pageOp := fun _ _ _ => .ok ()
  textContent := fun _ _ _ => .ok none
  getAttribute := fun _ _ _ _ => .ok none
  evaluate := fun _ _ _ => .ok .undefined
  screenshot := fun _ _ _ => .ok 0
  url := fun _ _ => "about:blank"
  title := fun _ _ => .ok ""

/-- An engine that cannot launch a browser. -/
def noLaunchEngine : Engine :=
  { okEngine with launch := fun _ _ _ => .error "cannot launch" }

/-- An engine that cannot create a browsing context. -/
def noContextEngine : Engine :=
  { okEngine with newContext := fun _ _ => .error "cannot create context" }

/-- An engine that cannot create a page. -/
def noPageEngine : Engine :=
  { okEngine with newPage := fun _ _ => .error "cannot create page" }

/-- An engine that cannot launch a second browser: a launch fails once any
engine call has been made. -/
def oneLaunchEngine : Engine :=
  { okEngine with
    launch := fun t _ _ => if t.isEmpty then .ok 0 else .error "cannot launch" }

/-- An engine whose `close` rejects. -/
def noCloseEngine : Engine :=
  { okEngine with close := fun _ _ => .error "cannot close" }

/-- The arguments `{ url: "https://example.com" }`. -/
def exampleUrl : JVal := .obj [("url", .str "https://example.com")]

/-- An engine on which loading a page fails and everything else succeeds. -/
def noLoadEngine : Engine :=
  { okEngine with
    pageOp := fun _ _ op =>
      match op with
      | .goto _ => .error "cannot load page"
      | _ => .ok () }

/-- An engine whose screenshots are 1024 bytes long. -/
def cameraEngine : Engine :=
  { okEngine with screenshot := fun _ _ _ => .ok 1024 }

/-- An engine that reads the empty string for every text and every attribute. -/
def emptyTextEngine : Engine :=
  { okEngine with
    textContent := fun _ _ _ => .ok (some "")
    getAttribute := fun _ _ _ _ => .ok (some "") }

/-! ## Reasoning about handlers -/

@[simp] theorem M.bind_eq {α β : Type} (m : M α) (f : α → M β) : (m >>= f) = M.andThen m f := rfl
@[simp] theorem M.pure_eq {α : Type} (a : α) : (pure a : M α) = M.ret a := rfl

theorem isOk_iff {ε α : Type} (r : Except ε α) : r.isOk = true ↔ ∃ a, r = .ok a := by
  cases r <;> simp [Except.isOk, Except.toBool]

theorem pageTool_noSession (env : Env) (eng : Engine) (name : String) (args : JVal) (w : World)
    (hname : name ∈ toolNames) (h1 : name ≠ "navigate") (h2 : name ≠ "close_browser")
    (hv : validArguments env name args = true) (hp : w.session.page = none) :
    toolSwitch env eng name args w = (.error noSessionError, w) := by
  simp only [toolNames, List.mem_cons, List.mem_singleton, List.not_mem_nil, or_false] at hname
  rcases hname with rfl | rfl | rfl | rfl | rfl | rfl | rfl | rfl | rfl | rfl | rfl | rfl | rfl
    | rfl | rfl | rfl | rfl | rfl
  all_goals first
    | exact absurd rfl h1
    | exact absurd rfl h2
    | (simp only [validArguments, isOk_iff] at hv
       obtain ⟨parsed, hparsed⟩ := hv
       simp [toolSwitch, handleClick, handleType, handleWaitForSelector, handleGetText,
         handleGetAttribute, handleEvaluate, handleScreenshot, handleFill, handleSelectOption,
         handleScroll, handlePressKey, handleGetPageInfo, handleWaitForLoadState, handleGoBack,
         handleGoForward, handleReload, M.andThen, M.parse, ensurePage, M.getSession, M.throw,
         noSessionError, hparsed, hp])

theorem M.frame_ret {α : Type} (a : α) : M.Frame (M.ret a) := fun _ => rfl
theorem M.frame_throw {α : Type} (e : Thrown) : M.Frame (M.throw e : M α) := fun _ => rfl
theorem M.frame_getSession : M.Frame M.getSession := fun _ => rfl
theorem M.frame_parse (schema : ZodType) (v : JVal) : M.Frame (M.parse schema v) := by
  intro w; unfold M.parse; split <;> rfl
theorem M.frame_await {α : Type} (action : Action) (answer : Trace → Except String α)
    (reply : α → Reply) : M.Frame (M.await action answer reply) := by
  intro w; unfold M.await; split <;> rfl
theorem M.frame_andThen {α β : Type} (m : M α) (f : α → M β) (hm : M.Frame m)
    (hf : ∀ a, M.Frame (f a)) : M.Frame (M.andThen m f) := by
  intro w
  unfold M.andThen
  split
  next a w' h => rw [hf a w', ← hm w, h]
  next e w' h => rw [← hm w, h]
theorem M.frame_ite {α : Type} (c : Prop) [Decidable c] (a b : M α) (ha : M.Frame a)
    (hb : M.Frame b) : M.Frame (if c then a else b) := by
  split <;> assumption
theorem frame_ensurePage : M.Frame ensurePage := by
  intro w; unfold ensurePage
  simp only [M.bind_eq, M.andThen, M.getSession]
  cases w.session.page <;> rfl
theorem frame_pageDo (eng : Engine) (page : Nat) (op : PageOp) : M.Frame (pageDo eng page op) :=
  M.frame_await _ _ _

theorem pageTool_session (env : Env) (eng : Engine) (name : String) (args : JVal) (w : World)
    (hname : name ∈ toolNames) (h1 : name ≠ "navigate") (h2 : name ≠ "close_browser") :
    (toolSwitch env eng name args w).2.session = w.session := by
  simp only [toolNames, List.mem_cons, List.mem_singleton, List.not_mem_nil, or_false] at hname
  revert w
  show M.Frame (toolSwitch env eng name args)
  rcases hname with rfl | rfl | rfl | rfl | rfl | rfl | rfl | rfl | rfl | rfl | rfl | rfl | rfl
    | rfl | rfl | rfl | rfl | rfl
  all_goals first
    | exact absurd rfl h1
    | exact absurd rfl h2
    | (simp only [toolSwitch, handleClick, handleType, handleWaitForSelector, handleGetText,
         handleGetAttribute, handleEvaluate, handleScreenshot, handleFill, handleSelectOption,
         handleScroll, handlePressKey, handleGetPageInfo, handleWaitForLoadState, handleGoBack,
         handleGoForward, handleReload, M.bind_eq, M.pure_eq]
       repeat first
         | exact M.frame_ret _
         | exact M.frame_parse _ _
         | exact frame_ensurePage
         | exact frame_pageDo _ _ _
         | exact M.frame_await _ _ _
         | refine M.frame_andThen _ _ ?_ (fun _ => ?_)
         | refine M.frame_ite _ _ _ ?_ ?_)

theorem M.ret_apply {α : Type} (a : α) (w : World) : M.ret a w = (.ok a, w) := rfl
theorem M.throw_apply {α : Type} (e : Thrown) (w : World) : (M.throw e : M α) w = (.error e, w) := rfl

theorem M.andThen_ok_iff {α β : Type} (m : M α) (f : α → M β) (w w2 : World) (b : β) :
    M.andThen m f w = (.ok b, w2) ↔ ∃ a w1, m w = (.ok a, w1) ∧ f a w1 = (.ok b, w2) := by
  unfold M.andThen
  rcases hm : m w with ⟨r, w1⟩
  cases r with
  | ok a =>
    constructor
    · intro h; exact ⟨a, w1, rfl, h⟩
    · rintro ⟨a', w1', h1, h2⟩
      cases h1; exact h2
  | error e =>
    constructor
    · intro h; cases h
    · rintro ⟨a', w1', h1, -⟩; cases h1

theorem M.andThen_error_iff {α β : Type} (m : M α) (f : α → M β) (w w2 : World) (e : Thrown) :
    M.andThen m f w = (.error e, w2) ↔
      m w = (.error e, w2) ∨ ∃ a w1, m w = (.ok a, w1) ∧ f a w1 = (.error e, w2) := by
  unfold M.andThen
  rcases hm : m w with ⟨r, w1⟩
  cases r with
  | ok a =>
    constructor
    · intro h; exact Or.inr ⟨a, w1, rfl, h⟩
    · rintro (h | ⟨a', w1', h1, h2⟩)
      · cases h
      · cases h1; exact h2
  | error e' =>
    dsimp only
    constructor
    · intro h; cases h; exact Or.inl rfl
    · rintro (h | ⟨a', w1', h1, -⟩)
      · cases h; rfl
      · cases h1

theorem M.await_ok_iff {α : Type} (action : Action) (answer : Trace → Except String α)
    (reply : α → Reply) (w w1 : World) (a : α) :
    M.await action answer reply w = (.ok a, w1) ↔
      answer w.trace = .ok a ∧ w1 = ⟨w.session, w.trace ++ [⟨action, reply a⟩]⟩ := by
  unfold M.await
  cases h : answer w.trace with
  | ok a' =>
    constructor
    · intro h'; cases h'; exact ⟨rfl, rfl⟩
    · rintro ⟨h1, rfl⟩; cases h1; rfl
  | error m =>
    constructor
    · intro h'; cases h'
    · rintro ⟨h1, -⟩; cases h1

theorem M.await_error_iff {α : Type} (action : Action) (answer : Trace → Except String α)
    (reply : α → Reply) (w w1 : World) (e : Thrown) :
    M.await action answer reply w = (.error e, w1) ↔
      ∃ m, answer w.trace = .error m ∧ e = .engine m ∧
        w1 = ⟨w.session, w.trace ++ [⟨action, .failed m⟩]⟩ := by
  unfold M.await
  cases h : answer w.trace with
  | ok a' =>
    constructor
    · intro h'; cases h'
    · rintro ⟨m, h1, -⟩; cases h1
  | error m =>
    constructor
    · intro h'; cases h'; exact ⟨m, rfl, rfl, rfl⟩
    · rintro ⟨m', h1, rfl, rfl⟩; cases h1; rfl

theorem M.parse_ok_iff (schema : ZodType) (v : JVal) (w w1 : World) (p : JVal) :
    M.parse schema v w = (.ok p, w1) ↔ schema v = .ok p ∧ w1 = w := by
  unfold M.parse
  cases h : schema v with
  | ok a' =>
    constructor
    · intro h'; cases h'; exact ⟨rfl, rfl⟩
    · rintro ⟨h1, rfl⟩; cases h1; rfl
  | error m =>
    constructor
    · intro h'; cases h'
    · rintro ⟨h1, -⟩; cases h1

theorem M.parse_error_iff (schema : ZodType) (v : JVal) (w w1 : World) (e : Thrown) :
    M.parse schema v w = (.error e, w1) ↔ ∃ is, schema v = .error is ∧ e = .zod is ∧ w1 = w := by
  unfold M.parse
  cases h : schema v with
  | ok a' =>
    constructor
    · intro h'; cases h'
    · rintro ⟨m, h1, -⟩; cases h1
  | error m =>
    constructor
    · intro h'; cases h'; exact ⟨m, rfl, rfl, rfl⟩
    · rintro ⟨m', h1, rfl, rfl⟩; cases h1; rfl

theorem closeIfOpen_ok_iff (eng : Engine) (w w1 : World) (u : Unit) :
    closeIfOpen eng w = (.ok u, w1) ↔
      (w.session.browser = none ∧ w1 = w) ∨
      ∃ old, w.session.browser = some old ∧ eng.close w.trace old = .ok () ∧
        w1 = ⟨w.session, w.trace ++ [⟨.close old, .done⟩]⟩ := by
  unfold closeIfOpen
  simp only [M.bind_eq, M.andThen, M.getSession]
  cases hb : w.session.browser with
  | none => simp [M.ret_apply, eq_comm]
  | some old => simp [M.await_ok_iff]

theorem closeIfOpen_error_iff (eng : Engine) (w w1 : World) (e : Thrown) :
    closeIfOpen eng w = (.error e, w1) ↔
      ∃ old m, w.session.browser = some old ∧ eng.close w.trace old = .error m ∧
        e = .engine m ∧ w1 = ⟨w.session, w.trace ++ [⟨.close old, .failed m⟩]⟩ := by
  unfold closeIfOpen
  simp only [M.bind_eq, M.andThen, M.getSession]
  cases hb : w.session.browser with
  | none => simp [M.ret_apply]
  | some old => simp [M.await_error_iff]

theorem navigate_ok (env : Env) (eng : Engine) (args : JVal) (w w' : World) (r : ToolResult)
    (h : handleNavigate env eng args w = (.ok r, w')) :
    ∃ parsed e b c p t0,
      NavigateSchema env.validUrl args = .ok parsed ∧
      (t0 = w.trace ∧ w.session.browser = none ∨
        ∃ old, w.session.browser = some old ∧ eng.close w.trace old = .ok () ∧
          t0 = w.trace ++ [⟨.close old, .done⟩]) ∧
      w' = ⟨⟨some b, some c, some p⟩,
        t0 ++ [⟨.launch e (parsed.get "headless"), .handle b⟩] ++ [⟨.newContext b, .handle c⟩]
          ++ [⟨.newPage c, .handle p⟩] ++ [⟨.page p (.goto (parsed.get "url")), .done⟩]⟩ := by
  unfold handleNavigate at h
  simp only [M.bind_eq, M.pure_eq, M.andThen_ok_iff, M.parse_ok_iff, M.await_ok_iff,
    closeIfOpen_ok_iff,
    M.getSession, M.setBrowser, M.setContext, M.setPage, M.ret_apply, Prod.mk.injEq,
    Except.ok.injEq] at h
  obtain ⟨parsed, w1, ⟨hparse, rfl⟩, u, w3, hclose, b, w4, ⟨hlaunch, rfl⟩,
    u2, w5, ⟨-, rfl⟩, c, w6, ⟨hctx, rfl⟩, u3, w7, ⟨-, rfl⟩, p, w8, ⟨hpage, rfl⟩, u4, w9,
    ⟨-, rfl⟩, u5, w10, ⟨hgoto, rfl⟩, -, rfl⟩ := h
  refine ⟨parsed, browserEngineOf (parsed.get "browser"), b, c, p, w3.trace, hparse, ?_, ?_⟩
  · rcases hclose with ⟨hb, rfl⟩ | ⟨old, hb, hc, rfl⟩
    · exact Or.inl ⟨rfl, hb⟩
    · exact Or.inr ⟨old, hb, hc, rfl⟩
  · rfl

theorem navigate_error (env : Env) (eng : Engine) (args : JVal) (w w' : World) (e : Thrown)
    (h : handleNavigate env eng args w = (.error e, w')) :
    (∃ is, NavigateSchema env.validUrl args = .error is ∧ e = .zod is ∧ w' = w) ∨
    ∃ parsed m, NavigateSchema env.validUrl args = .ok parsed ∧ e = .engine m ∧
      ((∃ old, w.session.browser = some old ∧ eng.close w.trace old = .error m ∧
          w' = ⟨w.session, w.trace ++ [⟨.close old, .failed m⟩]⟩) ∨
       ∃ t0 be, be = browserEngineOf (parsed.get "browser") ∧
        (t0 = w.trace ∧ w.session.browser = none ∨
          ∃ old, w.session.browser = some old ∧ t0 = w.trace ++ [⟨.close old, .done⟩]) ∧
        (eng.launch t0 be (parsed.get "headless") = .error m ∧
          w' = ⟨w.session, t0 ++ [⟨.launch be (parsed.get "headless"), .failed m⟩]⟩ ∨
         ∃ b,
          eng.newContext (t0 ++ [⟨.launch be (parsed.get "headless"), .handle b⟩]) b
              = .error m ∧
            w' = ⟨{ w.session with browser := some b },
                t0 ++ [⟨.launch be (parsed.get "headless"), .handle b⟩]
                  ++ [⟨.newContext b, .failed m⟩]⟩ ∨
         ∃ c,
          eng.newPage (t0 ++ [⟨.launch be (parsed.get "headless"), .handle b⟩]
              ++ [⟨.newContext b, .handle c⟩]) c = .error m ∧
            w' = ⟨⟨some b, some c, w.session.page⟩,
                t0 ++ [⟨.launch be (parsed.get "headless"), .handle b⟩]
                  ++ [⟨.newContext b, .handle c⟩] ++ [⟨.newPage c, .failed m⟩]⟩ ∨
         ∃ p,
          eng.pageOp (t0 ++ [⟨.launch be (parsed.get "headless"), .handle b⟩]
              ++ [⟨.newContext b, .handle c⟩] ++ [⟨.newPage c, .handle p⟩]) p
              (.goto (parsed.get "url")) = .error m ∧
          w' = ⟨⟨some b, some c, some p⟩,
                t0 ++ [⟨.launch be (parsed.get "headless"), .handle b⟩]
                  ++ [⟨.newContext b, .handle c⟩] ++ [⟨.newPage c, .handle p⟩]
                  ++ [⟨.page p (.goto (parsed.get "url")), .failed m⟩]⟩)) := by
  unfold handleNavigate at h
  simp only [M.bind_eq, M.pure_eq, M.andThen_error_iff, M.andThen_ok_iff, M.parse_ok_iff,
    M.parse_error_iff, M.await_ok_iff, M.await_error_iff, closeIfOpen_ok_iff,
    closeIfOpen_error_iff, M.setBrowser, M.setContext, M.setPage, M.ret_apply,
    Prod.mk.injEq, Except.ok.injEq, false_and, and_false, exists_false, or_false, false_or,
    reduceCtorEq] at h
  rcases h with ⟨is, hp, rfl, rfl⟩ | ⟨parsed, w1, ⟨hp, rfl⟩, h⟩
  · exact Or.inl ⟨is, hp, rfl, rfl⟩
  · right
    rcases h with ⟨old, m, hb, hc, rfl, rfl⟩ | ⟨u, w2, hclose, h⟩
    · exact ⟨parsed, m, hp, rfl, Or.inl ⟨old, hb, hc, rfl⟩⟩
    · have hs : w2.session = w1.session := by
        rcases hclose with ⟨-, rfl⟩ | ⟨old, -, -, rfl⟩ <;> rfl
      have ht : w2.trace = w1.trace ∧ w1.session.browser = none ∨
          ∃ old, w1.session.browser = some old ∧
            w2.trace = w1.trace ++ [⟨.close old, .done⟩] := by
        rcases hclose with ⟨hb, rfl⟩ | ⟨old, hb, -, rfl⟩
        · exact Or.inl ⟨rfl, hb⟩
        · exact Or.inr ⟨old, hb, rfl⟩
      rcases h with ⟨m, hl, rfl, rfl⟩ | ⟨b, w3, ⟨-, rfl⟩, h⟩
      · exact ⟨parsed, m, hp, rfl, Or.inr ⟨w2.trace, _, rfl, ht, Or.inl ⟨hl, by rw [hs]⟩⟩⟩
      · rcases h with ⟨u3, w4, ⟨-, rfl⟩, h⟩
        rcases h with ⟨m, hl, rfl, rfl⟩ | ⟨c, w5, ⟨-, rfl⟩, u4, w6, ⟨-, rfl⟩, h⟩
        · exact ⟨parsed, m, hp, rfl, Or.inr ⟨w2.trace, _, rfl, ht,
            Or.inr ⟨b, Or.inl ⟨hl, by rw [hs]⟩⟩⟩⟩
        · rcases h with ⟨m, hl, rfl, rfl⟩ | ⟨p, w7, ⟨-, rfl⟩, u5, w8, ⟨-, rfl⟩, h⟩
          · exact ⟨parsed, m, hp, rfl, Or.inr ⟨w2.trace, _, rfl, ht,
              Or.inr ⟨b, Or.inr ⟨c, Or.inl ⟨hl, by simp [hs]⟩⟩⟩⟩⟩
          · rcases h with ⟨m, hl, rfl, rfl⟩
            exact ⟨parsed, m, hp, rfl, Or.inr ⟨w2.trace, _, rfl, ht,
              Or.inr ⟨b, Or.inr ⟨c, Or.inr ⟨p, hl, rfl⟩⟩⟩⟩⟩

theorem isOk_error_false {ε α : Type} (r : Except ε α) (e : ε) (h : r = .error e) :
    r.isOk = false := by
  subst h; rfl

theorem navigate_succeeds (env : Env) (eng : Engine) (args : JVal) (w : World)
    (hv : validArguments env "navigate" args = true) (hs : eng.Succeeds) :
    ∃ r w', handleNavigate env eng args w = (.ok r, w') := by
  have hv' : (NavigateSchema env.validUrl args).isOk = true := hv
  rcases hr : handleNavigate env eng args w with ⟨r, w'⟩
  cases r with
  | ok r => exact ⟨r, w', rfl⟩
  | error e =>
    exfalso
    rcases navigate_error env eng args w w' e hr with
      ⟨is, hp, -, -⟩ | ⟨parsed, m, -, -, ⟨old, -, hc, -⟩ | ⟨t0, be, -, -, h'⟩⟩
    · rw [hp] at hv'; cases hv'
    · have h1 := isOk_error_false _ _ hc
      rw [hs.close] at h1; cases h1
    · rcases h' with ⟨hl, -⟩ | ⟨b, ⟨hl, -⟩ | ⟨c, ⟨hl, -⟩ | ⟨p, hl, -⟩⟩⟩
      · have h1 := isOk_error_false _ _ hl
        rw [hs.launch] at h1; cases h1
      · have h1 := isOk_error_false _ _ hl
        rw [hs.newContext] at h1; cases h1
      · have h1 := isOk_error_false _ _ hl
        rw [hs.newPage] at h1; cases h1
      · have h1 := isOk_error_false _ _ hl
        rw [hs.pageOp] at h1; cases h1

theorem toolSwitch_unknown (env : Env) (eng : Engine) (name : String) (args : JVal) (w : World)
    (h : name ∉ toolNames) :
    toolSwitch env eng name args w
      = (.error (.mcp .MethodNotFound ("Unknown tool: " ++ name)), w) := by
  simp only [toolNames, List.mem_cons, List.mem_singleton, not_or, List.not_mem_nil,
    not_false_eq_true, and_true] at h
  unfold toolSwitch
  split <;> simp_all [M.throw]

theorem callTool_snd (env : Env) (eng : Engine) (name : String) (args : JVal) (w : World) :
    (callTool env eng name args w).2 = (toolSwitch env eng name args w).2 := by
  unfold callTool
  rcases toolSwitch env eng name args w with ⟨r, w'⟩
  cases r <;> rfl

theorem callTool_ok_iff (env : Env) (eng : Engine) (name : String) (args : JVal) (w w' : World)
    (r : ToolResult) :
    callTool env eng name args w = (.ok r, w') ↔ toolSwitch env eng name args w = (.ok r, w') := by
  unfold callTool
  rcases toolSwitch env eng name args w with ⟨r', w1⟩
  cases r' <;> simp

theorem callTool_of_error (env : Env) (eng : Engine) (name : String) (args : JVal) (w w' : World)
    (e : Thrown) (h : toolSwitch env eng name args w = (.error e, w')) :
    callTool env eng name args w
      = (.error ⟨.InternalError, "Tool execution failed: " ++ e.message env⟩, w') := by
  unfold callTool
  rw [h]

theorem callTool_error_inv (env : Env) (eng : Engine) (name : String) (args : JVal)
    (w w' : World) (err : McpError) (h : callTool env eng name args w = (.error err, w')) :
    ∃ e, toolSwitch env eng name args w = (.error e, w') := by
  unfold callTool at h
  rcases hs : toolSwitch env eng name args w with ⟨r', w1⟩
  rw [hs] at h
  cases r' with
  | ok a => cases h
  | error e => cases h; exact ⟨e, rfl⟩

theorem toolSwitch_navigate (env : Env) (eng : Engine) (args : JVal) :
    toolSwitch env eng "navigate" args = handleNavigate env eng args := rfl

theorem toolSwitch_close (env : Env) (eng : Engine) (args : JVal) :
    toolSwitch env eng "close_browser" args = handleCloseBrowser eng := rfl

theorem close_none (eng : Engine) (w : World) (hb : w.session.browser = none) :
    handleCloseBrowser eng w = (.ok (textResult "Browser closed successfully"), w) := by
  unfold handleCloseBrowser
  simp [M.andThen, M.getSession, hb, M.ret]

theorem close_some_ok (eng : Engine) (w : World) (b : Nat) (hb : w.session.browser = some b)
    (hc : eng.close w.trace b = .ok ()) :
    handleCloseBrowser eng w = (.ok (textResult "Browser closed successfully"),
      ⟨Session.empty, w.trace ++ [⟨.close b, .done⟩]⟩) := by
  unfold handleCloseBrowser
  simp [M.andThen, M.getSession, hb, M.ret, M.await, hc, M.setBrowser, M.setContext,
    M.setPage, Session.empty]

theorem close_some_error (eng : Engine) (w : World) (b : Nat) (m : String)
    (hb : w.session.browser = some b) (hc : eng.close w.trace b = .error m) :
    handleCloseBrowser eng w
      = (.error (.engine m), ⟨w.session, w.trace ++ [⟨.close b, .failed m⟩]⟩) := by
  unfold handleCloseBrowser
  simp [M.andThen, M.getSession, hb, M.await, hc]

theorem nested_empty : Session.Nested Session.empty := by
  simp [Session.Nested, Session.empty]

theorem nested_browser_none (s : Session) (h : s.Nested) (hb : s.browser = none) :
    s = Session.empty := by
  rcases s with ⟨b, c, p⟩
  simp only [Session.Nested] at h
  cases hb
  cases c with
  | some c => simp at h
  | none =>
    cases p with
    | some p => simp at h
    | none => rfl

theorem toolSwitch_nested (env : Env) (eng : Engine) (name : String) (args : JVal) (w : World)
    (h : w.session.Nested) : (toolSwitch env eng name args w).2.session.Nested := by
  by_cases hn : name ∈ toolNames
  · by_cases h1 : name = "navigate"
    · subst h1
      rw [toolSwitch_navigate]
      rcases hr : handleNavigate env eng args w with ⟨r, w'⟩
      cases r with
      | ok r =>
        obtain ⟨parsed, e, b, c, p, t0, -, -, rfl⟩ := navigate_ok env eng args w w' r hr
        simp [Session.Nested]
      | error e =>
        rcases navigate_error env eng args w w' e hr with
          ⟨is, -, -, rfl⟩ | ⟨parsed, m, -, -, ⟨old, -, -, rfl⟩ | ⟨t0, be, -, -, h'⟩⟩
        · exact h
        · exact h
        · rcases h' with ⟨-, rfl⟩ | ⟨b, ⟨-, rfl⟩ | ⟨c, ⟨-, rfl⟩ | ⟨p, -, rfl⟩⟩⟩
          · exact h
          · exact ⟨h.1, fun _ => rfl⟩
          · exact ⟨fun _ => rfl, fun _ => rfl⟩
          · exact ⟨fun _ => rfl, fun _ => rfl⟩
    · by_cases h2 : name = "close_browser"
      · subst h2
        rw [toolSwitch_close]
        cases hb : w.session.browser with
        | none => rw [close_none eng w hb]; exact h
        | some b =>
          cases hc : eng.close w.trace b with
          | ok u => rw [close_some_ok eng w b hb hc]; exact nested_empty
          | error m => rw [close_some_error eng w b m hb hc]; exact h
      · rw [pageTool_session env eng name args w hn h1 h2]
        exact h
  · rw [toolSwitch_unknown env eng name args w hn]
    exact h

theorem run_nested (env : Env) (eng : Engine) (calls : List ToolCall) (w : World)
    (h : w.session.Nested) : (run env eng w calls).session.Nested := by
  induction calls generalizing w with
  | nil => exact h
  | cons c cs ih =>
    apply ih
    unfold step
    rw [callTool_snd]
    exact toolSwitch_nested env eng c.name c.rawArguments w h

theorem liveBrowsers_append (t es : Trace) :
    liveBrowsers (t ++ es) = es.foldl updateLive (liveBrowsers t) := by
  unfold liveBrowsers
  rw [List.foldl_append]

theorem ensurePage_none (w : World) (hp : w.session.page = none) :
    ensurePage w = (.error noSessionError, w) := by
  unfold ensurePage
  simp [M.andThen, M.getSession, hp, M.throw, noSessionError]

theorem navigate_twice_of_ok (env : Env) (eng : Engine) (w w1 w2 : World)
    (a1 a2 : JVal) (r1 r2 : ToolResult)
    (h1 : callTool env eng "navigate" a1 w = (.ok r1, w1))
    (h2 : callTool env eng "navigate" a2 w1 = (.ok r2, w2)) :
    ∃ b1 c1 p1 b2 c2 p2 e2 headless2 url2,
      w1.session = ⟨some b1, some c1, some p1⟩ ∧
      w2.session = ⟨some b2, some c2, some p2⟩ ∧
      w2.trace = w1.trace ++ [⟨.close b1, .done⟩, ⟨.launch e2 headless2, .handle b2⟩,
        ⟨.newContext b2, .handle c2⟩, ⟨.newPage c2, .handle p2⟩,
        ⟨.page p2 (.goto url2), .done⟩] ∧
      (liveBrowsers w.trace = w.session.browser.toList →
        liveBrowsers w1.trace = [b1] ∧ liveBrowsers w2.trace = [b2]) := by
  rw [callTool_ok_iff, toolSwitch_navigate] at h1 h2
  obtain ⟨parsed1, e1, b1, c1, p1, t1, -, ht1, rfl⟩ := navigate_ok env eng a1 w w1 r1 h1
  obtain ⟨parsed2, e2, b2, c2, p2, t2, -, ht2, rfl⟩ := navigate_ok env eng a2 _ w2 r2 h2
  have hl1 : liveBrowsers w.trace = w.session.browser.toList →
      liveBrowsers (t1 ++ [⟨.launch e1 (parsed1.get "headless"), .handle b1⟩]
      ++ [⟨.newContext b1, .handle c1⟩] ++ [⟨.newPage c1, .handle p1⟩]
      ++ [⟨.page p1 (.goto (parsed1.get "url")), .done⟩]) = [b1] := by
    intro hlive
    rcases ht1 with ⟨rfl, hb⟩ | ⟨old, hb, -, rfl⟩
    · simp [liveBrowsers_append, updateLive, hlive, hb]
    · simp [liveBrowsers_append, updateLive, hlive, hb]
  rcases ht2 with ⟨-, hb⟩ | ⟨old, hb, -, rfl⟩
  · cases hb
  · cases hb
    refine ⟨b1, c1, p1, b2, c2, p2, e2, parsed2.get "headless", parsed2.get "url",
      rfl, rfl, by simp, fun hlive => ⟨hl1 hlive, ?_⟩⟩
    have hl1 := hl1 hlive
    generalize t1 ++ [⟨.launch e1 (parsed1.get "headless"), .handle b1⟩]
      ++ [⟨.newContext b1, .handle c1⟩] ++ [⟨.newPage c1, .handle p1⟩]
      ++ [⟨.page p1 (.goto (parsed1.get "url")), .done⟩] = t at hl1 ⊢
    simp [liveBrowsers_append, updateLive, hl1]

theorem okEngine_succeeds : okEngine.Succeeds :=
  ⟨fun _ _ => rfl, fun _ _ _ => rfl, fun _ _ => rfl, fun _ _ => rfl, fun _ _ _ => rfl,
    fun _ _ _ => rfl, fun _ _ _ _ => rfl, fun _ _ _ => rfl, fun _ _ _ => rfl, fun _ _ => rfl⟩

theorem lookup_of_hasKey_false (key : String) (kvs : List (String × JVal))
    (h : JVal.hasKey key kvs = false) : JVal.lookup key kvs = .undefined := by
  induction kvs with
  | nil => rfl
  | cons kv rest ih =>
    rcases kv with ⟨k, v⟩
    simp only [JVal.hasKey, Bool.or_eq_false_iff, decide_eq_false_iff_not] at h
    simp only [JVal.lookup, h.1, if_false]
    exact ih h.2

theorem M.engineOnly_ret {α : Type} (a : α) : M.EngineOnly (M.ret a) := by
  intro w e w' h; cases h

theorem M.engineOnly_await {α : Type} (action : Action) (answer : Trace → Except String α)
    (reply : α → Reply) : M.EngineOnly (M.await action answer reply) := by
  intro w e w' h
  obtain ⟨m, -, rfl, -⟩ := (M.await_error_iff ..).1 h
  exact ⟨m, rfl⟩

theorem M.engineOnly_andThen {α β : Type} (m : M α) (f : α → M β) (hm : M.EngineOnly m)
    (hf : ∀ a, M.EngineOnly (f a)) : M.EngineOnly (M.andThen m f) := by
  intro w e w' h
  rcases (M.andThen_error_iff ..).1 h with h | ⟨a, w1, -, h⟩
  · exact hm w e w' h
  · exact hf a w1 e w' h

theorem M.engineOnly_ite {α : Type} (c : Prop) [Decidable c] (a b : M α)
    (ha : M.EngineOnly a) (hb : M.EngineOnly b) : M.EngineOnly (if c then a else b) := by
  split <;> assumption

theorem engineOnly_pageDo (eng : Engine) (page : Nat) (op : PageOp) :
    M.EngineOnly (pageDo eng page op) :=
  M.engineOnly_await _ _ _

theorem pageTool_shape (env : Env) (eng : Engine) (name : String) (args : JVal)
    (hname : name ∈ toolNames) (h1 : name ≠ "navigate") (h2 : name ≠ "close_browser") :
    ∃ (schema : ZodType) (input : JVal) (body : JVal → Nat → M ToolResult),
      toolSwitch env eng name args = M.guarded schema input body ∧
      (∀ parsed page, M.EngineOnly (body parsed page)) ∧
      validArguments env name args = (schema input).isOk := by
  simp only [toolNames, List.mem_cons, List.mem_singleton, List.not_mem_nil, or_false] at hname
  rcases hname with rfl | rfl | rfl | rfl | rfl | rfl | rfl | rfl | rfl | rfl | rfl | rfl | rfl
    | rfl | rfl | rfl | rfl | rfl
  all_goals first
    | exact absurd rfl h1
    | exact absurd rfl h2
    | (refine ⟨_, _, _, rfl, ?_, rfl⟩
       intro parsed page
       simp only [M.bind_eq, M.pure_eq]
       repeat first
         | exact M.engineOnly_ret _
         | exact engineOnly_pageDo _ _ _
         | exact M.engineOnly_await _ _ _
         | refine M.engineOnly_andThen _ _ ?_ (fun _ => ?_)
         | refine M.engineOnly_ite _ _ _ ?_ ?_)

theorem ensurePage_some (w : World) (p : Nat) (hp : w.session.page = some p) :
    ensurePage w = (.ok p, w) := by
  unfold ensurePage
  simp [M.andThen, M.getSession, hp, M.ret]

theorem guarded_invalid {α : Type} (schema : ZodType) (input : JVal) (body : JVal → Nat → M α)
    (w : World) (issues : List ZodIssue) (h : schema input = .error issues) :
    M.guarded schema input body w = (.error (.zod issues), w) := by
  simp [M.guarded, M.andThen, M.parse, h]

theorem guarded_noPage {α : Type} (schema : ZodType) (input : JVal) (body : JVal → Nat → M α)
    (w : World) (parsed : JVal) (h : schema input = .ok parsed) (hp : w.session.page = none) :
    M.guarded schema input body w = (.error noSessionError, w) := by
  simp [M.guarded, M.andThen, M.parse, h, ensurePage_none w hp]

theorem guarded_page {α : Type} (schema : ZodType) (input : JVal) (body : JVal → Nat → M α)
    (w : World) (parsed : JVal) (p : Nat) (h : schema input = .ok parsed)
    (hp : w.session.page = some p) :
    M.guarded schema input body w = body parsed p w := by
  simp [M.guarded, M.andThen, M.parse, h, ensurePage_some w p hp]

theorem guarded_error {α : Type} (schema : ZodType) (input : JVal) (body : JVal → Nat → M α)
    (hbody : ∀ parsed page, M.EngineOnly (body parsed page))
    (w w' : World) (e : Thrown) (h : M.guarded schema input body w = (.error e, w')) :
    (∃ issues, schema input = .error issues ∧ e = .zod issues ∧ w' = w) ∨
    (∃ parsed, schema input = .ok parsed ∧ w.session.page = none ∧ e = noSessionError ∧
      w' = w) ∨
    (∃ parsed page message, schema input = .ok parsed ∧ w.session.page = some page ∧
      e = .engine message) := by
  cases hs : schema input with
  | error issues =>
    rw [guarded_invalid schema input body w issues hs] at h
    cases h
    exact Or.inl ⟨issues, rfl, rfl, rfl⟩
  | ok parsed =>
    cases hp : w.session.page with
    | none =>
      rw [guarded_noPage schema input body w parsed hs hp] at h
      cases h
      exact Or.inr (Or.inl ⟨parsed, rfl, rfl, rfl, rfl⟩)
    | some page =>
      rw [guarded_page schema input body w parsed page hs hp] at h
      obtain ⟨message, rfl⟩ := hbody parsed page w e w' h
      exact Or.inr (Or.inr ⟨parsed, page, message, rfl, rfl, rfl⟩)

theorem close_error (eng : Engine) (w w' : World) (e : Thrown)
    (h : handleCloseBrowser eng w = (.error e, w')) : ∃ message, e = .engine message := by
  cases hb : w.session.browser with
  | none => rw [close_none eng w hb] at h; cases h
  | some b =>
    cases hc : eng.close w.trace b with
    | ok u => rw [close_some_ok eng w b hb hc] at h; cases h
    | error m => rw [close_some_error eng w b m hb hc] at h; cases h; exact ⟨m, rfl⟩

theorem toolSwitch_error_kinds (env : Env) (eng : Engine) (name : String) (args : JVal)
    (w w' : World) (e : Thrown) (h : toolSwitch env eng name args w = (.error e, w')) :
    (name ∉ toolNames ∧ e = .mcp .MethodNotFound ("Unknown tool: " ++ name) ∧ w' = w) ∨
    (name ∈ toolNames ∧ ∃ issues, e = .zod issues ∧ w' = w) ∨
    (name ∈ toolNames ∧ e = noSessionError ∧ w' = w) ∨
    (name ∈ toolNames ∧ ∃ message, e = .engine message) := by
  by_cases hn : name ∈ toolNames
  · by_cases h1 : name = "navigate"
    · subst h1
      rw [toolSwitch_navigate] at h
      rcases navigate_error env eng args w w' e h with
        ⟨is, -, rfl, rfl⟩ | ⟨parsed, m, -, rfl, -⟩
      · exact Or.inr (Or.inl ⟨hn, is, rfl, rfl⟩)
      · exact Or.inr (Or.inr (Or.inr ⟨hn, m, rfl⟩))
    · by_cases h2 : name = "close_browser"
      · subst h2
        rw [toolSwitch_close] at h
        obtain ⟨m, rfl⟩ := close_error eng w w' e h
        exact Or.inr (Or.inr (Or.inr ⟨hn, m, rfl⟩))
      · obtain ⟨schema, input, body, hsw, hbody, -⟩ :=
          pageTool_shape env eng name args hn h1 h2
        rw [hsw] at h
        rcases guarded_error schema input body hbody w w' e h with
          ⟨is, -, rfl, rfl⟩ | ⟨parsed, -, -, rfl, rfl⟩ | ⟨parsed, page, m, -, -, rfl⟩
        · exact Or.inr (Or.inl ⟨hn, is, rfl, rfl⟩)
        · exact Or.inr (Or.inr (Or.inl ⟨hn, rfl, rfl⟩))
        · exact Or.inr (Or.inr (Or.inr ⟨hn, m, rfl⟩))
  · rw [toolSwitch_unknown env eng name args w hn] at h
    cases h
    exact Or.inl ⟨hn, rfl, rfl⟩

theorem isOk_false_iff {ε α : Type} (r : Except ε α) : r.isOk = false ↔ ∃ e, r = .error e := by
  cases r <;> simp [Except.isOk, Except.toBool]

theorem pageTool_not_noSession (env : Env) (eng : Engine) (name : String) (args : JVal)
    (w : World) (p : Nat) (hname : name ∈ toolNames) (h1 : name ≠ "navigate")
    (h2 : name ≠ "close_browser") (hp : w.session.page = some p) :
    (toolSwitch env eng name args w).1 ≠ .error noSessionError := by
  intro hres
  rcases hr : toolSwitch env eng name args w with ⟨r, w'⟩
  rw [hr] at hres
  simp only at hres
  subst hres
  obtain ⟨schema, input, body, hsw, hbody, -⟩ := pageTool_shape env eng name args hname h1 h2
  rw [hsw] at hr
  rcases guarded_error schema input body hbody w w' _ hr with
    ⟨is, -, he, -⟩ | ⟨parsed, -, hnone, -, -⟩ | ⟨parsed, page, m, -, -, he⟩
  · simp [noSessionError] at he
  · rw [hp] at hnone; cases hnone
  · simp [noSessionError] at he

/-! ## The claims -/

/-- C1: a call whose tool name is not among the registered names throws the
unknown-tool error (`McpError`, `MethodNotFound`, "Unknown tool: " and the name)
inside the dispatcher, which hands it on under its uniform failure envelope; the
session and the history of engine calls are exactly as before, so no engine
action was issued. -/
theorem unknown_tool_fails_unchanged (env : Env) (eng : Engine) (name : String) (args : JVal)
    (w : World) (h : name ∉ toolNames) :
    toolSwitch env eng name args w
      = (.error (.mcp .MethodNotFound ("Unknown tool: " ++ name)), w) ∧
    callTool env eng name args w
      = (.error ⟨.InternalError, "Tool execution failed: "
          ++ env.mcpMessage .MethodNotFound ("Unknown tool: " ++ name)⟩, w) := by
  have hs := toolSwitch_unknown env eng name args w h
  exact ⟨hs, callTool_of_error env eng name args w w _ hs⟩

/-- C1, at the name "hover" in the initial world. -/
theorem unknown_tool_fails_unchanged_witness :
    "hover" ∉ toolNames ∧
    toolSwitch testEnv okEngine "hover" .null World.init
      = (.error (.mcp .MethodNotFound ("Unknown tool: " ++ "hover")), World.init) ∧
    callTool testEnv okEngine "hover" .null World.init
      = (.error ⟨.InternalError, "Tool execution failed: "
          ++ testEnv.mcpMessage .MethodNotFound ("Unknown tool: " ++ "hover")⟩, World.init) :=
  ⟨by decide, unknown_tool_fails_unchanged testEnv okEngine "hover" .null World.init (by decide)⟩

/-- C2 as stated fails: before any navigate, `close_browser` succeeds, and
`click` with a selector that is not a string fails with the validation error;
neither fails with the no-session error. -/
theorem before_navigate_counterexample :
    (toolSwitch testEnv okEngine "close_browser" (.obj []) World.init).1
      = .ok (textResult "Browser closed successfully") ∧
    (toolSwitch testEnv okEngine "click" (.obj [("selector", .num 123)]) World.init).1
      = .error (.zod [⟨.invalid_type, [.inl "selector"]⟩]) ∧
    (toolSwitch testEnv okEngine "close_browser" (.obj []) World.init).1
      ≠ .error noSessionError ∧
    (toolSwitch testEnv okEngine "click" (.obj [("selector", .num 123)]) World.init).1
      ≠ .error noSessionError := by
  decide

/-- C2, amended: for every tool other than navigate and close_browser, and for
all arguments that pass the tool's schema, a call in the initial state throws the
no-session error of `ensurePage`, handed on under the dispatcher's envelope, and
leaves the world as it was. -/
theorem before_navigate_no_session (env : Env) (eng : Engine) (name : String) (args : JVal)
    (hname : name ∈ toolNames) (h1 : name ≠ "navigate") (h2 : name ≠ "close_browser")
    (hv : validArguments env name args = true) :
    toolSwitch env eng name args World.init = (.error noSessionError, World.init) ∧
    callTool env eng name args World.init
      = (.error ⟨.InternalError, "Tool execution failed: "
          ++ env.mcpMessage .InvalidRequest noSessionText⟩, World.init) := by
  have hs := pageTool_noSession env eng name args World.init hname h1 h2 hv rfl
  exact ⟨hs, callTool_of_error env eng name args _ _ _ hs⟩

/-- C2, amended, at `get_page_info({})`. -/
theorem before_navigate_no_session_witness :
    validArguments testEnv "get_page_info" (.obj []) = true ∧
    toolSwitch testEnv okEngine "get_page_info" (.obj []) World.init
      = (.error noSessionError, World.init) ∧
    callTool testEnv okEngine "get_page_info" (.obj []) World.init
      = (.error ⟨.InternalError, "Tool execution failed: "
          ++ testEnv.mcpMessage .InvalidRequest noSessionText⟩, World.init) :=
  ⟨by decide, before_navigate_no_session testEnv okEngine "get_page_info" (.obj [])
    (by decide) (by decide) (by decide) (by decide)⟩

/-- C3: two navigate calls in a row with valid arguments, on an engine none of
whose calls fails, both succeed; the engine calls of the second are exactly: close
of the first browser (completed), then launch, new context, new page and page
load of the second; the session then holds the second browser, context and page.
When the browsers running before the two calls are just the session's (none at
start), exactly the first browser runs after the first call and exactly the
second after the second. -/
theorem navigate_twice_one_live_browser (env : Env) (eng : Engine) (w : World) (a1 a2 : JVal)
    (hv1 : validArguments env "navigate" a1 = true)
    (hv2 : validArguments env "navigate" a2 = true)
    (hs : eng.Succeeds) :
    ∃ r1 w1 r2 w2 b1 c1 p1 b2 c2 p2 e2 headless2 url2,
      callTool env eng "navigate" a1 w = (.ok r1, w1) ∧
      callTool env eng "navigate" a2 w1 = (.ok r2, w2) ∧
      w1.session = ⟨some b1, some c1, some p1⟩ ∧
      w2.session = ⟨some b2, some c2, some p2⟩ ∧
      w2.trace = w1.trace ++ [⟨.close b1, .done⟩, ⟨.launch e2 headless2, .handle b2⟩,
        ⟨.newContext b2, .handle c2⟩, ⟨.newPage c2, .handle p2⟩,
        ⟨.page p2 (.goto url2), .done⟩] ∧
      (liveBrowsers w.trace = w.session.browser.toList →
        liveBrowsers w1.trace = [b1] ∧ liveBrowsers w2.trace = [b2]) := by
  obtain ⟨r1, w1, h1⟩ := navigate_succeeds env eng a1 w hv1 hs
  obtain ⟨r2, w2, h2⟩ := navigate_succeeds env eng a2 w1 hv2 hs
  rw [← toolSwitch_navigate, ← callTool_ok_iff] at h1 h2
  obtain ⟨b1, c1, p1, b2, c2, p2, e2, hd2, url2, hrest⟩ :=
    navigate_twice_of_ok env eng w w1 w2 a1 a2 r1 r2 h1 h2
  exact ⟨r1, w1, r2, w2, b1, c1, p1, b2, c2, p2, e2, hd2, url2, h1, h2, hrest⟩

/-- C3, on the engine that always succeeds, from the initial world. -/
theorem navigate_twice_one_live_browser_witness :
    ∃ r1 w1 r2 w2 b1 c1 p1 b2 c2 p2 e2 headless2 url2,
      callTool testEnv okEngine "navigate" exampleUrl World.init = (.ok r1, w1) ∧
      callTool testEnv okEngine "navigate" (.obj [("url", .str "https://example.org")]) w1
        = (.ok r2, w2) ∧
      w1.session = ⟨some b1, some c1, some p1⟩ ∧
      w2.session = ⟨some b2, some c2, some p2⟩ ∧
      w2.trace = w1.trace ++ [⟨.close b1, .done⟩, ⟨.launch e2 headless2, .handle b2⟩,
        ⟨.newContext b2, .handle c2⟩, ⟨.newPage c2, .handle p2⟩,
        ⟨.page p2 (.goto url2), .done⟩] ∧
      liveBrowsers w1.trace = [b1] ∧ liveBrowsers w2.trace = [b2] := by
  obtain ⟨r1, w1, r2, w2, b1, c1, p1, b2, c2, p2, e2, hd2, url2, h1, h2, hs1, hs2, ht, hl⟩ :=
    navigate_twice_one_live_browser testEnv okEngine World.init
      exampleUrl (.obj [("url", .str "https://example.org")]) (by decide) (by decide)
      okEngine_succeeds
  exact ⟨r1, w1, r2, w2, b1, c1, p1, b2, c2, p2, e2, hd2, url2, h1, h2, hs1, hs2, ht, hl rfl⟩

/-- C4 as stated fails. From the empty session, a navigate on an engine that
cannot create a context fails and leaves the new browser in the session, which is
therefore not empty. From an active session, a navigate on an engine that cannot
launch again fails and leaves the three old handles in place, and `ensurePage`
returns the old page instead of throwing. -/
theorem navigate_start_failure_counterexample :
    (callTool testEnv noContextEngine "navigate" exampleUrl World.init).1
      = .error ⟨.InternalError, "Tool execution failed: cannot create context"⟩ ∧
    (callTool testEnv noContextEngine "navigate" exampleUrl World.init).2.session
      = ⟨some 0, none, none⟩ ∧
    (callTool testEnv noContextEngine "navigate" exampleUrl World.init).2.session
      ≠ Session.empty ∧
    (callTool testEnv oneLaunchEngine "navigate" exampleUrl
        (run testEnv oneLaunchEngine World.init [⟨"navigate", exampleUrl⟩])).1
      = .error ⟨.InternalError, "Tool execution failed: cannot launch"⟩ ∧
    (callTool testEnv oneLaunchEngine "navigate" exampleUrl
        (run testEnv oneLaunchEngine World.init [⟨"navigate", exampleUrl⟩])).2.session
      = ⟨some 0, some 1, some 2⟩ ∧
    (ensurePage (callTool testEnv oneLaunchEngine "navigate" exampleUrl
        (run testEnv oneLaunchEngine World.init [⟨"navigate", exampleUrl⟩])).2).1
      = .ok 2 := by
  decide

/-- C4, amended: in a state whose page handle is empty (the empty session among
them), when navigate fails and the last engine call it made is a failed launch,
a failed creation of the context or a failed creation of the page, the page
handle is still empty afterwards and `ensurePage` throws the no-session error.
The handles assigned before the failure stay: after a failed launch the three
handles are as before the call, after a failed context creation the browser
handle is the new browser, after a failed page creation the browser and context
handles are the new ones. -/
theorem navigate_start_failure_no_page (env : Env) (eng : Engine) (args : JVal)
    (w w' : World) (err : McpError) (evs : Trace) (a : Action) (m : String)
    (hp : w.session.page = none)
    (h : callTool env eng "navigate" args w = (.error err, w'))
    (hevs : w'.trace = w.trace ++ evs)
    (hlast : evs.getLast? = some ⟨a, .failed m⟩)
    (ha : a.startsSession = true) :
    w'.session.page = none ∧
    ensurePage w' = (.error noSessionError, w') ∧
    (∀ e headless, a = .launch e headless → w'.session = w.session) ∧
    (∀ b, a = .newContext b → w'.session = ⟨some b, w.session.context, none⟩) ∧
    (∀ c, a = .newPage c → ∃ b, w'.session = ⟨some b, some c, none⟩) := by
  obtain ⟨e, he⟩ := callTool_error_inv env eng "navigate" args w w' err h
  rw [toolSwitch_navigate] at he
  have key : w'.session.page = none ∧
      (∀ e headless, a = .launch e headless → w'.session = w.session) ∧
      (∀ b, a = .newContext b → w'.session = ⟨some b, w.session.context, none⟩) ∧
      (∀ c, a = .newPage c → ∃ b, w'.session = ⟨some b, some c, none⟩) := by
    have hlast' : ∀ (x : Event) (pre : Trace), w'.trace = pre ++ [x] →
        x = ⟨a, .failed m⟩ := by
      intro x pre ht
      have h1 : (w.trace ++ evs).getLast? = some x := by
        rw [← hevs, ht, List.getLast?_concat]
      rw [List.getLast?_append, hlast] at h1
      simpa using h1.symm
    rcases navigate_error env eng args w w' e he with
      ⟨is, -, -, rfl⟩ | ⟨parsed, m', -, -, ⟨old, -, -, rfl⟩ | ⟨t0, be, -, -, h'⟩⟩
    · simp only [List.self_eq_append_right] at hevs
      subst hevs
      simp at hlast
    · have hx := hlast' _ _ rfl
      simp only [Event.mk.injEq] at hx
      obtain ⟨rfl, -⟩ := hx
      simp [Action.startsSession] at ha
    · rcases h' with ⟨-, rfl⟩ | ⟨b, ⟨-, rfl⟩ | ⟨c, ⟨-, rfl⟩ | ⟨p, -, rfl⟩⟩⟩
      · have hx := hlast' _ _ rfl
        simp only [Event.mk.injEq] at hx
        obtain ⟨rfl, -⟩ := hx
        refine ⟨hp, fun _ _ _ => rfl, ?_, ?_⟩
        · intro b hb; cases hb
        · intro c hc; cases hc
      · have hx := hlast' _ _ rfl
        simp only [Event.mk.injEq] at hx
        obtain ⟨rfl, -⟩ := hx
        refine ⟨hp, ?_, ?_, ?_⟩
        · intro e' hd hl; cases hl
        · intro b' hb; cases hb; simp [hp]
        · intro c hc; cases hc
      · have hx := hlast' _ _ rfl
        simp only [Event.mk.injEq] at hx
        obtain ⟨rfl, -⟩ := hx
        refine ⟨hp, ?_, ?_, ?_⟩
        · intro e' hd hl; cases hl
        · intro b' hb; cases hb
        · intro c' hc; cases hc; exact ⟨b, by simp [hp]⟩
      · have hx := hlast' _ _ rfl
        simp only [Event.mk.injEq] at hx
        obtain ⟨rfl, -⟩ := hx
        simp [Action.startsSession] at ha
  exact ⟨key.1, ensurePage_none w' key.1, key.2⟩

/-- C4, amended, on the engine that cannot launch and on the engine that cannot
create a context, from the initial world. -/
theorem navigate_start_failure_no_page_witness :
    (callTool testEnv noLaunchEngine "navigate" exampleUrl World.init).2.session.page = none ∧
    ensurePage (callTool testEnv noLaunchEngine "navigate" exampleUrl World.init).2
      = (.error noSessionError,
          (callTool testEnv noLaunchEngine "navigate" exampleUrl World.init).2) ∧
    (callTool testEnv noLaunchEngine "navigate" exampleUrl World.init).2.session
      = World.init.session ∧
    (callTool testEnv noContextEngine "navigate" exampleUrl World.init).2.session
      = ⟨some 0, World.init.session.context, none⟩ :=
  ⟨(navigate_start_failure_no_page testEnv noLaunchEngine exampleUrl World.init _
      ⟨.InternalError, "Tool execution failed: cannot launch"⟩ _
      (.launch .chromium (.bool true)) "cannot launch" rfl rfl rfl rfl rfl).1,
    (navigate_start_failure_no_page testEnv noLaunchEngine exampleUrl World.init _
      ⟨.InternalError, "Tool execution failed: cannot launch"⟩ _
      (.launch .chromium (.bool true)) "cannot launch" rfl rfl rfl rfl rfl).2.1,
    (navigate_start_failure_no_page testEnv noLaunchEngine exampleUrl World.init _
      ⟨.InternalError, "Tool execution failed: cannot launch"⟩ _
      (.launch .chromium (.bool true)) "cannot launch" rfl rfl rfl rfl rfl).2.2.1 _ _ rfl,
    (navigate_start_failure_no_page testEnv noContextEngine exampleUrl World.init _
      ⟨.InternalError, "Tool execution failed: cannot create context"⟩ _
      (.newContext 0) "cannot create context" rfl rfl rfl rfl rfl).2.2.2.1 _ rfl⟩

/-- C5 as stated fails: after a navigate on an engine that cannot create a page,
the browser and context handles are set and the page handle is empty. -/
theorem handles_iff_counterexample :
    (run testEnv noPageEngine World.init [⟨"navigate", exampleUrl⟩]).session
      = ⟨some 0, some 1, none⟩ ∧
    ¬ ((run testEnv noPageEngine World.init [⟨"navigate", exampleUrl⟩]).session.page.isSome
        = true ↔
      ((run testEnv noPageEngine World.init [⟨"navigate", exampleUrl⟩]).session.context.isSome
          = true ∧
        (run testEnv noPageEngine World.init [⟨"navigate", exampleUrl⟩]).session.browser.isSome
          = true)) := by
  decide

/-- C5, amended: in every state reached from the initial one by a sequence of
tool calls, whatever the engine answers, a page handle that is set comes with a
context handle and a browser handle that are set. -/
theorem reachable_page_has_context_and_browser (env : Env) (eng : Engine)
    (calls : List ToolCall) :
    (run env eng World.init calls).session.page.isSome = true →
      (run env eng World.init calls).session.context.isSome = true ∧
      (run env eng World.init calls).session.browser.isSome = true := by
  intro hp
  have h := run_nested env eng calls World.init nested_empty
  exact ⟨h.1 hp, h.2 (h.1 hp)⟩

/-- C5, amended, after a successful navigate and a click. -/
theorem reachable_page_has_context_and_browser_witness :
    (run testEnv okEngine World.init
        [⟨"navigate", exampleUrl⟩, ⟨"click", .obj [("selector", .str "#btn")]⟩]
      ).session.page.isSome = true ∧
    (run testEnv okEngine World.init
        [⟨"navigate", exampleUrl⟩, ⟨"click", .obj [("selector", .str "#btn")]⟩]
      ).session.context.isSome = true ∧
    (run testEnv okEngine World.init
        [⟨"navigate", exampleUrl⟩, ⟨"click", .obj [("selector", .str "#btn")]⟩]
      ).session.browser.isSome = true :=
  ⟨by decide, reachable_page_has_context_and_browser testEnv okEngine
    [⟨"navigate", exampleUrl⟩, ⟨"click", .obj [("selector", .str "#btn")]⟩] (by decide)⟩

/-- C6 as stated fails: with a session open on an engine whose `close` rejects,
two close_browser calls in a row both fail. -/
theorem close_twice_counterexample :
    (callTool testEnv noCloseEngine "close_browser" .undefined
        (run testEnv noCloseEngine World.init [⟨"navigate", exampleUrl⟩])).1
      = .error ⟨.InternalError, "Tool execution failed: cannot close"⟩ ∧
    (callTool testEnv noCloseEngine "close_browser" .undefined
        (callTool testEnv noCloseEngine "close_browser" .undefined
          (run testEnv noCloseEngine World.init [⟨"navigate", exampleUrl⟩])).2).1
      = .error ⟨.InternalError, "Tool execution failed: cannot close"⟩ := by
  decide

/-- C6, amended: in every state, if the engine's `close` of the session's
browser (when there is one) does not fail, two close_browser calls in a row both
return "Browser closed successfully", and the second leaves the world, session
and history of engine calls, exactly as the first left it. -/
theorem close_twice_succeeds (env : Env) (eng : Engine) (w : World) (args1 args2 : JVal)
    (hclose : ∀ b, w.session.browser = some b → eng.close w.trace b = .ok ()) :
    (callTool env eng "close_browser" args1 w).1
      = .ok (textResult "Browser closed successfully") ∧
    (callTool env eng "close_browser" args2 (callTool env eng "close_browser" args1 w).2).1
      = .ok (textResult "Browser closed successfully") ∧
    (callTool env eng "close_browser" args2 (callTool env eng "close_browser" args1 w).2).2
      = (callTool env eng "close_browser" args1 w).2 := by
  have hfirst : ∃ w1, w1.session.browser = none ∧
      callTool env eng "close_browser" args1 w
        = (.ok (textResult "Browser closed successfully"), w1) := by
    cases hb : w.session.browser with
    | none =>
      exact ⟨w, hb, (callTool_ok_iff ..).2 (by rw [toolSwitch_close]; exact close_none eng w hb)⟩
    | some b =>
      exact ⟨_, rfl, (callTool_ok_iff ..).2
        (by rw [toolSwitch_close]; exact close_some_ok eng w b hb (hclose b hb))⟩
  obtain ⟨w1, hb1, h1⟩ := hfirst
  have h2 : callTool env eng "close_browser" args2 w1
      = (.ok (textResult "Browser closed successfully"), w1) :=
    (callTool_ok_iff ..).2 (by rw [toolSwitch_close]; exact close_none eng w1 hb1)
  rw [h1]
  exact ⟨rfl, by rw [h2], by rw [h2]⟩

/-- C6, amended, with a session open on the engine that always succeeds. -/
theorem close_twice_succeeds_witness :
    (callTool testEnv okEngine "close_browser" .undefined
        (run testEnv okEngine World.init [⟨"navigate", exampleUrl⟩])).1
      = .ok (textResult "Browser closed successfully") ∧
    (callTool testEnv okEngine "close_browser" .undefined
        (callTool testEnv okEngine "close_browser" .undefined
          (run testEnv okEngine World.init [⟨"navigate", exampleUrl⟩])).2).1
      = .ok (textResult "Browser closed successfully") ∧
    (callTool testEnv okEngine "close_browser" .undefined
        (callTool testEnv okEngine "close_browser" .undefined
          (run testEnv okEngine World.init [⟨"navigate", exampleUrl⟩])).2).2
      = (callTool testEnv okEngine "close_browser" .undefined
          (run testEnv okEngine World.init [⟨"navigate", exampleUrl⟩])).2 :=
  close_twice_succeeds testEnv okEngine
    (run testEnv okEngine World.init [⟨"navigate", exampleUrl⟩]) .undefined .undefined
    (fun _ _ => rfl)

/-- C7 as stated fails: with a session open on an engine whose `close` rejects,
close_browser reports a failure and the three handles stay set. -/
theorem close_disposes_counterexample :
    (run testEnv noCloseEngine World.init
        [⟨"navigate", exampleUrl⟩, ⟨"close_browser", .undefined⟩]).session
      = ⟨some 0, some 1, some 2⟩ ∧
    (run testEnv noCloseEngine World.init
        [⟨"navigate", exampleUrl⟩, ⟨"close_browser", .undefined⟩]).session
      ≠ Session.empty ∧
    (callTool testEnv noCloseEngine "close_browser" .undefined
        (run testEnv noCloseEngine World.init [⟨"navigate", exampleUrl⟩])).1
      ≠ .ok (textResult "Browser closed successfully") := by
  decide

/-- C7, amended: in every state reached from the initial one, if the engine's
`close` of the session's browser (when there is one) does not fail, close_browser
returns "Browser closed successfully" and leaves the browser, context and page
handles all empty; when no browser handle was set the call changes nothing at
all. -/
theorem close_disposes_session (env : Env) (eng : Engine) (calls : List ToolCall) (args : JVal)
    (hclose : ∀ b, (run env eng World.init calls).session.browser = some b →
      eng.close (run env eng World.init calls).trace b = .ok ()) :
    (callTool env eng "close_browser" args (run env eng World.init calls)).1
      = .ok (textResult "Browser closed successfully") ∧
    (callTool env eng "close_browser" args (run env eng World.init calls)).2.session
      = Session.empty ∧
    ((run env eng World.init calls).session.browser = none →
      (callTool env eng "close_browser" args (run env eng World.init calls)).2
        = run env eng World.init calls) := by
  have hn := run_nested env eng calls World.init nested_empty
  generalize run env eng World.init calls = w at hclose hn ⊢
  cases hb : w.session.browser with
  | none =>
    have h : callTool env eng "close_browser" args w
        = (.ok (textResult "Browser closed successfully"), w) :=
      (callTool_ok_iff ..).2 (by rw [toolSwitch_close]; exact close_none eng w hb)
    rw [h]
    exact ⟨rfl, nested_browser_none w.session hn hb, fun _ => rfl⟩
  | some b =>
    have h : callTool env eng "close_browser" args w
        = (.ok (textResult "Browser closed successfully"),
            ⟨Session.empty, w.trace ++ [⟨.close b, .done⟩]⟩) :=
      (callTool_ok_iff ..).2
        (by rw [toolSwitch_close]; exact close_some_ok eng w b hb (hclose b hb))
    rw [h]
    exact ⟨rfl, rfl, fun h' => by cases h'⟩

/-- C7, amended, with a session open on the engine that always succeeds, and
in the initial state, where the call changes nothing. -/
theorem close_disposes_session_witness :
    (callTool testEnv okEngine "close_browser" (.obj [])
        (run testEnv okEngine World.init [⟨"navigate", exampleUrl⟩])).1
      = .ok (textResult "Browser closed successfully") ∧
    (callTool testEnv okEngine "close_browser" (.obj [])
        (run testEnv okEngine World.init [⟨"navigate", exampleUrl⟩])).2.session
      = Session.empty ∧
    (callTool testEnv okEngine "close_browser" (.obj []) (run testEnv okEngine World.init [])).2
      = run testEnv okEngine World.init [] :=
  ⟨(close_disposes_session testEnv okEngine [⟨"navigate", exampleUrl⟩] (.obj [])
      (fun _ _ => rfl)).1,
    (close_disposes_session testEnv okEngine [⟨"navigate", exampleUrl⟩] (.obj [])
      (fun _ _ => rfl)).2.1,
    (close_disposes_session testEnv okEngine [] (.obj []) (fun _ _ => rfl)).2.2 rfl⟩

/-- C8: after any sequence of tool calls from the initial state followed by a
close_browser that succeeded, a call of any tool other than navigate and
close_browser, with arguments that pass its schema, throws the no-session error
of `ensurePage`, handed on under the dispatcher's envelope, and changes nothing. -/
theorem after_close_no_session (env : Env) (eng : Engine) (calls : List ToolCall)
    (closeArgs : JVal) (r : ToolResult) (w1 : World) (name : String) (args : JVal)
    (hclose : callTool env eng "close_browser" closeArgs (run env eng World.init calls)
      = (.ok r, w1))
    (hname : name ∈ toolNames) (h1 : name ≠ "navigate") (h2 : name ≠ "close_browser")
    (hv : validArguments env name args = true) :
    toolSwitch env eng name args w1 = (.error noSessionError, w1) ∧
    callTool env eng name args w1
      = (.error ⟨.InternalError, "Tool execution failed: "
          ++ env.mcpMessage .InvalidRequest noSessionText⟩, w1) := by
  have hn := run_nested env eng calls World.init nested_empty
  generalize run env eng World.init calls = w at hclose hn
  rw [callTool_ok_iff, toolSwitch_close] at hclose
  have hp : w1.session.page = none := by
    cases hb : w.session.browser with
    | none =>
      rw [close_none eng w hb] at hclose
      rw [← (Prod.mk.inj hclose).2, nested_browser_none w.session hn hb]
      rfl
    | some b =>
      cases hc : eng.close w.trace b with
      | ok u =>
        rw [close_some_ok eng w b hb hc] at hclose
        cases hclose
        rfl
      | error m =>
        rw [close_some_error eng w b m hb hc] at hclose
        cases hclose
  have hs := pageTool_noSession env eng name args w1 hname h1 h2 hv hp
  exact ⟨hs, callTool_of_error env eng name args _ _ _ hs⟩

/-- C8, on the sequence navigate, close_browser, `get_text({selector: "#x"})`. -/
theorem after_close_no_session_witness :
    toolSwitch testEnv okEngine "get_text" (.obj [("selector", .str "#x")])
        (run testEnv okEngine World.init
          [⟨"navigate", exampleUrl⟩, ⟨"close_browser", .undefined⟩])
      = (.error noSessionError, run testEnv okEngine World.init
          [⟨"navigate", exampleUrl⟩, ⟨"close_browser", .undefined⟩]) ∧
    callTool testEnv okEngine "get_text" (.obj [("selector", .str "#x")])
        (run testEnv okEngine World.init
          [⟨"navigate", exampleUrl⟩, ⟨"close_browser", .undefined⟩])
      = (.error ⟨.InternalError, "Tool execution failed: "
          ++ testEnv.mcpMessage .InvalidRequest noSessionText⟩,
        run testEnv okEngine World.init
          [⟨"navigate", exampleUrl⟩, ⟨"close_browser", .undefined⟩]) :=
  after_close_no_session testEnv okEngine [⟨"navigate", exampleUrl⟩] .undefined
    (textResult "Browser closed successfully")
    (run testEnv okEngine World.init [⟨"navigate", exampleUrl⟩, ⟨"close_browser", .undefined⟩])
    "get_text" (.obj [("selector", .str "#x")]) rfl (by decide) (by decide) (by decide)
    (by decide)

/-- C9 as stated fails: `{selector: "#btn"}` is accepted, and the parsed
arguments have no `options` at all; reading it gives `undefined`, not the empty
object. -/
theorem click_options_default_counterexample :
    ClickSchema (.obj [("selector", .str "#btn")]) = .ok (.obj [("selector", .str "#btn")]) ∧
    (JVal.obj [("selector", .str "#btn")]).get "options" = .undefined ∧
    (JVal.obj [("selector", .str "#btn")]).get "options" ≠ .obj [] :=
  ⟨rfl, rfl, by intro h; cases h⟩

/-- C9, amended: `ClickSchema` rejects every argument object whose `selector` is
not a string, with a wrong-type issue at `selector`; it accepts an object that
has just a string `selector` and returns it as it is, with no default for
`options`, which stays `undefined`. -/
theorem click_schema_selector (kvs : List (String × JVal)) (s : String) :
    ((∀ t, JVal.lookup "selector" kvs ≠ .str t) →
      ∃ issues, ClickSchema (.obj kvs) = .error issues ∧
        ⟨.invalid_type, [.inl "selector"]⟩ ∈ issues) ∧
    ClickSchema (.obj [("selector", .str s)]) = .ok (.obj [("selector", .str s)]) ∧
    (JVal.obj [("selector", .str s)]).get "options" = .undefined := by
  refine ⟨fun hsel => ?_, rfl, rfl⟩
  have hstr : z.string (JVal.lookup "selector" kvs) = .error [⟨.invalid_type, []⟩] := by
    cases hl : JVal.lookup "selector" kvs with
    | str t => exact absurd hl (hsel t)
    | _ => rfl
  simp [ClickSchema, z.object, z.objectFields, hstr, z.under]

/-- C9, amended, at `{selector: 123}` and `{selector: "#btn"}`. -/
theorem click_schema_selector_witness :
    (∃ issues, ClickSchema (.obj [("selector", .num 123)]) = .error issues ∧
        ⟨.invalid_type, [.inl "selector"]⟩ ∈ issues) ∧
    ClickSchema (.obj [("selector", .str "#btn")]) = .ok (.obj [("selector", .str "#btn")]) :=
  ⟨(click_schema_selector [("selector", .num 123)] "#btn").1
      (fun t h => by simp [JVal.lookup] at h),
    (click_schema_selector [("selector", .num 123)] "#btn").2.1⟩

/-- C10: for every navigate argument object with a valid `url`, the parsed
arguments have `browser` equal to the given engine name, or "chromium" when none
is given, and `headless` equal to the given boolean, or `true` when none is
given. For every wait_for_load_state argument object, whenever it parses, the
parsed `state` is the given state, or "load" when none is given; and it does
parse whenever its `options` are absent or valid. -/
theorem validation_applies_defaults (env : Env) (kvs : List (String × JVal))
    (u b s : String) (h : Bool) :
    (JVal.lookup "url" kvs = .str u → env.validUrl u = true →
      (JVal.lookup "browser" kvs = .undefined ∧ b = "chromium" ∨
        JVal.lookup "browser" kvs = .str b ∧ b ∈ ["chromium", "firefox", "webkit"]) →
      (JVal.lookup "headless" kvs = .undefined ∧ h = true ∨
        JVal.lookup "headless" kvs = .bool h) →
      NavigateSchema env.validUrl (.obj kvs)
        = .ok (.obj [("url", .str u), ("browser", .str b), ("headless", .bool h)])) ∧
    ((JVal.lookup "state" kvs = .undefined ∧ s = "load" ∨
        JVal.lookup "state" kvs = .str s ∧ s ∈ ["load", "domcontentloaded", "networkidle"]) →
      (∀ parsed, WaitForLoadStateSchema (.obj kvs) = .ok parsed →
        parsed.get "state" = .str s) ∧
      (∀ o, z.optional (z.object [("timeout", z.optional z.number)])
          (JVal.lookup "options" kvs) = .ok o →
        ∃ parsed, WaitForLoadStateSchema (.obj kvs) = .ok parsed)) := by
  constructor
  · intro hurl hvalid hb hh
    have hbrowser : z.default (z.enum ["chromium", "firefox", "webkit"]) (.str "chromium")
        (JVal.lookup "browser" kvs) = .ok (.str b) := by
      rcases hb with ⟨hb, rfl⟩ | ⟨hb, hmem⟩
      · rw [hb]; rfl
      · rw [hb]; simp only [z.default, z.enum, hmem, if_true]
    have hheadless : z.default z.boolean (.bool true) (JVal.lookup "headless" kvs)
        = .ok (.bool h) := by
      rcases hh with ⟨hh, rfl⟩ | hh
      · rw [hh]; rfl
      · rw [hh]; rfl
    simp [NavigateSchema, z.object, z.objectFields, hurl, z.stringUrl, hvalid, hbrowser,
      hheadless, JVal.isDefined]
  · intro hs
    have hstate : z.default (z.enum ["load", "domcontentloaded", "networkidle"]) (.str "load")
        (JVal.lookup "state" kvs) = .ok (.str s) := by
      rcases hs with ⟨hs, rfl⟩ | ⟨hs, hmem⟩
      · rw [hs]; rfl
      · rw [hs]; simp only [z.default, z.enum, hmem, if_true]
    constructor
    · intro parsed hparsed
      simp only [WaitForLoadStateSchema, z.object, z.objectFields, hstate, JVal.isDefined,
        Bool.true_or, if_true] at hparsed
      split at hparsed
      · cases hparsed
        simp [JVal.get, JVal.lookup]
      · cases hparsed
    · intro o ho
      have hdef : (JVal.str s).isDefined = true := rfl
      cases hk : (o.isDefined || JVal.hasKey "options" kvs) with
      | true =>
        exact ⟨_, by
          simp only [WaitForLoadStateSchema, z.object, z.objectFields, hstate, ho, hdef, hk,
            Bool.true_or, if_true]
          rfl⟩
      | false =>
        exact ⟨_, by
          simp only [WaitForLoadStateSchema, z.object, z.objectFields, hstate, ho, hdef, hk,
            Bool.true_or, if_true]
          rfl⟩

/-- C10, at `{url: "https://example.com"}`, which gets both defaults, at
`{url: "https://example.com", browser: "firefox", headless: false}`, which keeps
its values, and at `{}` for wait_for_load_state, which gets the state "load". -/
theorem validation_applies_defaults_witness :
    NavigateSchema testEnv.validUrl exampleUrl
      = .ok (.obj [("url", .str "https://example.com"), ("browser", .str "chromium"),
          ("headless", .bool true)]) ∧
    NavigateSchema testEnv.validUrl (.obj [("url", .str "https://example.com"),
        ("browser", .str "firefox"), ("headless", .bool false)])
      = .ok (.obj [("url", .str "https://example.com"), ("browser", .str "firefox"),
          ("headless", .bool false)]) ∧
    (JVal.obj [("state", .str "load")]).get "state" = .str "load" ∧
    (∃ parsed, WaitForLoadStateSchema (.obj []) = .ok parsed) :=
  ⟨(validation_applies_defaults testEnv [("url", .str "https://example.com")]
      "https://example.com" "chromium" "load" true).1 rfl (by decide)
      (Or.inl ⟨rfl, rfl⟩) (Or.inl ⟨rfl, rfl⟩),
    (validation_applies_defaults testEnv [("url", .str "https://example.com"),
        ("browser", .str "firefox"), ("headless", .bool false)]
      "https://example.com" "firefox" "load" false).1 rfl (by decide)
      (Or.inr ⟨rfl, by decide⟩) (Or.inr rfl),
    ((validation_applies_defaults testEnv [] "" "chromium" "load" true).2
      (Or.inl ⟨rfl, rfl⟩)).1 (.obj [("state", .str "load")]) rfl,
    ((validation_applies_defaults testEnv [] "" "chromium" "load" true).2
      (Or.inl ⟨rfl, rfl⟩)).2 .undefined rfl⟩

/-- C11: whenever a tool call fails, the error handed to the caller has the one
code `InternalError`, and its message is "Tool execution failed: " followed by
the message of what was thrown inside; what was thrown is the unknown-tool error,
a validation error, the no-session error or an engine failure. -/
theorem failures_surface_uniformly (env : Env) (eng : Engine) (name : String) (args : JVal)
    (w w' : World) (err : McpError)
    (h : callTool env eng name args w = (.error err, w')) :
    err.code = .InternalError ∧
    ∃ e, toolSwitch env eng name args w = (.error e, w') ∧
      err.message = "Tool execution failed: " ++ e.message env ∧
      (e = .mcp .MethodNotFound ("Unknown tool: " ++ name) ∨
        (∃ issues, e = .zod issues) ∨
        e = noSessionError ∨
        ∃ message, e = .engine message) := by
  obtain ⟨e, he⟩ := callTool_error_inv env eng name args w w' err h
  rw [callTool_of_error env eng name args w w' e he] at h
  cases h
  refine ⟨rfl, e, he, rfl, ?_⟩
  rcases toolSwitch_error_kinds env eng name args w w' e he with
    ⟨-, h, -⟩ | ⟨-, is, h, -⟩ | ⟨-, h, -⟩ | ⟨-, m, h⟩
  · exact Or.inl h
  · exact Or.inr (Or.inl ⟨is, h⟩)
  · exact Or.inr (Or.inr (Or.inl h))
  · exact Or.inr (Or.inr (Or.inr ⟨m, h⟩))

/-- C11, at one failure of each kind: an unknown tool, a click whose selector is
a number, a get_text before any navigate, and a navigate on an engine that cannot
launch. -/
theorem failures_surface_uniformly_witness :
    (∃ e, toolSwitch testEnv okEngine "hover" .null World.init = (.error e, World.init) ∧
      "Tool execution failed: MCP error: Unknown tool: hover"
        = "Tool execution failed: " ++ e.message testEnv ∧
      (e = .mcp .MethodNotFound ("Unknown tool: " ++ "hover") ∨
        (∃ issues, e = .zod issues) ∨ e = noSessionError ∨ ∃ message, e = .engine message)) ∧
    (∃ e, toolSwitch testEnv okEngine "click" (.obj [("selector", .num 123)]) World.init
        = (.error e, World.init) ∧
      "Tool execution failed: invalid arguments"
        = "Tool execution failed: " ++ e.message testEnv ∧
      (e = .mcp .MethodNotFound ("Unknown tool: " ++ "click") ∨
        (∃ issues, e = .zod issues) ∨ e = noSessionError ∨ ∃ message, e = .engine message)) ∧
    (∃ e, toolSwitch testEnv okEngine "get_text" (.obj [("selector", .str "#x")]) World.init
        = (.error e, World.init) ∧
      "Tool execution failed: MCP error: No active browser session. Please navigate to a URL first."
        = "Tool execution failed: " ++ e.message testEnv ∧
      (e = .mcp .MethodNotFound ("Unknown tool: " ++ "get_text") ∨
        (∃ issues, e = .zod issues) ∨ e = noSessionError ∨ ∃ message, e = .engine message)) ∧
    (∃ e, toolSwitch testEnv noLaunchEngine "navigate" exampleUrl World.init
        = (.error e, (callTool testEnv noLaunchEngine "navigate" exampleUrl World.init).2) ∧
      "Tool execution failed: cannot launch"
        = "Tool execution failed: " ++ e.message testEnv ∧
      (e = .mcp .MethodNotFound ("Unknown tool: " ++ "navigate") ∨
        (∃ issues, e = .zod issues) ∨ e = noSessionError ∨ ∃ message, e = .engine message)) :=
  ⟨(failures_surface_uniformly testEnv okEngine "hover" .null World.init World.init
      ⟨.InternalError, "Tool execution failed: MCP error: Unknown tool: hover"⟩ rfl).2,
    (failures_surface_uniformly testEnv okEngine "click" (.obj [("selector", .num 123)])
      World.init World.init ⟨.InternalError, "Tool execution failed: invalid arguments"⟩ rfl).2,
    (failures_surface_uniformly testEnv okEngine "get_text" (.obj [("selector", .str "#x")])
      World.init World.init
      ⟨.InternalError,
        "Tool execution failed: MCP error: No active browser session. Please navigate to a URL first."⟩
      rfl).2,
    (failures_surface_uniformly testEnv noLaunchEngine "navigate" exampleUrl World.init
      (callTool testEnv noLaunchEngine "navigate" exampleUrl World.init).2
      ⟨.InternalError, "Tool execution failed: cannot launch"⟩ rfl).2⟩

/-- C12: for every tool name, state and arguments, when what the call throws is
a validation error or the no-session error, the world after the call is the world
before it: the three handles are unchanged and no engine call has joined the
history. -/
theorem validation_and_guard_failures_change_nothing (env : Env) (eng : Engine)
    (name : String) (args : JVal) (w w' : World) (e : Thrown)
    (h : toolSwitch env eng name args w = (.error e, w'))
    (hkind : (∃ issues, e = .zod issues) ∨ e = noSessionError) :
    w' = w ∧
    callTool env eng name args w
      = (.error ⟨.InternalError, "Tool execution failed: " ++ e.message env⟩, w) := by
  have hw : w' = w := by
    rcases toolSwitch_error_kinds env eng name args w w' e h with
      ⟨-, he, -⟩ | ⟨-, is, -, hw⟩ | ⟨-, -, hw⟩ | ⟨-, m, he⟩
    · subst he
      rcases hkind with ⟨is, hk⟩ | hk
      · cases hk
      · simp [noSessionError] at hk
    · exact hw
    · exact hw
    · subst he
      rcases hkind with ⟨is, hk⟩ | hk
      · cases hk
      · cases hk
  subst hw
  exact ⟨rfl, callTool_of_error env eng name args _ _ e h⟩

/-- C12, at a navigate with no `url` while a session is open, and at a click in
the initial state. -/
theorem validation_and_guard_failures_change_nothing_witness :
    (callTool testEnv okEngine "navigate" (.obj [])
        (run testEnv okEngine World.init [⟨"navigate", exampleUrl⟩])
      = (.error ⟨.InternalError, "Tool execution failed: "
          ++ (Thrown.zod [⟨.invalid_type, [.inl "url"]⟩]).message testEnv⟩,
        run testEnv okEngine World.init [⟨"navigate", exampleUrl⟩])) ∧
    (callTool testEnv okEngine "click" (.obj [("selector", .str "#btn")]) World.init
      = (.error ⟨.InternalError, "Tool execution failed: "
          ++ noSessionError.message testEnv⟩, World.init)) :=
  ⟨(validation_and_guard_failures_change_nothing testEnv okEngine "navigate" (.obj [])
      (run testEnv okEngine World.init [⟨"navigate", exampleUrl⟩])
      (run testEnv okEngine World.init [⟨"navigate", exampleUrl⟩])
      (.zod [⟨.invalid_type, [.inl "url"]⟩]) rfl (Or.inl ⟨_, rfl⟩)).2,
    (validation_and_guard_failures_change_nothing testEnv okEngine "click"
      (.obj [("selector", .str "#btn")]) World.init World.init noSessionError rfl
      (Or.inr rfl)).2⟩

/-- C13: the names announced by "list tools" are pairwise distinct, and a name
is announced exactly when the dispatcher's switch has a case for it: a call under
an announced name never ends in the unknown-tool error, a call under any other
name always does. -/
theorem advertised_names_are_routed :
    (listTools.map ToolDefinition.name).Nodup ∧
    listTools.map ToolDefinition.name = toolNames ∧
    ∀ (env : Env) (eng : Engine) (name : String) (args : JVal) (w : World),
      name ∈ listTools.map ToolDefinition.name ↔
        (toolSwitch env eng name args w).1
          ≠ .error (.mcp .MethodNotFound ("Unknown tool: " ++ name)) := by
  have hnames : listTools.map ToolDefinition.name = toolNames := rfl
  refine ⟨by decide, hnames, fun env eng name args w => ?_⟩
  rw [hnames]
  constructor
  · intro hn hres
    rcases hr : toolSwitch env eng name args w with ⟨r, w'⟩
    rw [hr] at hres
    simp only at hres
    subst hres
    rcases toolSwitch_error_kinds env eng name args w w' _ hr with
      ⟨hnot, -, -⟩ | ⟨-, is, he, -⟩ | ⟨-, he, -⟩ | ⟨-, m, he⟩
    · exact hnot hn
    · cases he
    · simp [noSessionError] at he
    · cases he
  · intro hres
    by_contra hn
    rw [toolSwitch_unknown env eng name args w hn] at hres
    exact hres rfl

/-- C14 as stated fails: with a session open, a screenshot call whose options
carry the empty string as `path` reports the byte length, not the path. -/
theorem screenshot_empty_path_counterexample :
    ScreenshotSchema (.obj [("options", .obj [("path", .str "")])])
      = .ok (.obj [("options", .obj [("path", .str "")])]) ∧
    (callTool testEnv cameraEngine "screenshot" (.obj [("options", .obj [("path", .str "")])])
        (run testEnv cameraEngine World.init [⟨"navigate", exampleUrl⟩])).1
      = .ok (textResult "Screenshot taken (1024 bytes)") ∧
    (callTool testEnv cameraEngine "screenshot" (.obj [("options", .obj [("path", .str "")])])
        (run testEnv cameraEngine World.init [⟨"navigate", exampleUrl⟩])).1
      ≠ .ok (textResult ("Screenshot saved to: " ++ "")) := by
  refine ⟨rfl, ?_, ?_⟩ <;> decide

/-- C14, amended: for every screenshot call with valid arguments, a page in the
session and a capture that succeeds, the call succeeds after that one engine
call; when the options carry a non-empty `path` the text is "Screenshot saved
to: " and that path; when they carry no `path`, or the empty string, the text is
"Screenshot taken (n bytes)" with the byte length of the capture. -/
theorem screenshot_reports_path_or_size (env : Env) (eng : Engine) (args : JVal) (w : World)
    (parsed : JVal) (p n : Nat)
    (hparse : ScreenshotSchema (args.orElse (.obj [])) = .ok parsed)
    (hp : w.session.page = some p)
    (hshot : eng.screenshot w.trace p (parsed.get "options") = .ok n) :
    ∃ text,
      callTool env eng "screenshot" args w
        = (.ok (textResult text),
            ⟨w.session, w.trace ++ [⟨.screenshot p (parsed.get "options"), .bytes n⟩]⟩) ∧
      (∀ s, (parsed.get "options").get "path" = .str s → s ≠ "" →
        text = "Screenshot saved to: " ++ s) ∧
      ((parsed.get "options").get "path" = .undefined ∨
          (parsed.get "options").get "path" = .str "" →
        text = "Screenshot taken (" ++ toString n ++ " bytes)") := by
  have hs : toolSwitch env eng "screenshot" args w
      = (.ok (textResult (if ((parsed.get "options").get "path").truthy = true
            then "Screenshot saved to: " ++ ((parsed.get "options").get "path").toStr env.showNum
            else "Screenshot taken (" ++ toString n ++ " bytes)")),
          ⟨w.session, w.trace ++ [⟨.screenshot p (parsed.get "options"), .bytes n⟩]⟩) := by
    show handleScreenshot env eng args w = _
    unfold handleScreenshot
    simp only [M.bind_eq, M.pure_eq, M.andThen, M.parse, hparse, ensurePage_some w p hp,
      M.await, hshot]
    split <;> simp_all [M.ret]
  refine ⟨_, (callTool_ok_iff ..).2 hs, ?_, ?_⟩
  · intro s hpath hne
    simp [hpath, JVal.truthy, hne, JVal.toStr]
  · rintro (hpath | hpath) <;> simp [hpath, JVal.truthy]

/-- C14, amended, with a session open on an engine whose screenshots are 1024
bytes long: once with the path "shot.png", once with no options. -/
theorem screenshot_reports_path_or_size_witness :
    (∃ text,
      callTool testEnv cameraEngine "screenshot"
          (.obj [("options", .obj [("path", .str "shot.png")])])
          (run testEnv cameraEngine World.init [⟨"navigate", exampleUrl⟩])
        = (.ok (textResult text),
            ⟨(run testEnv cameraEngine World.init [⟨"navigate", exampleUrl⟩]).session,
              (run testEnv cameraEngine World.init [⟨"navigate", exampleUrl⟩]).trace
                ++ [⟨.screenshot 2 (.obj [("path", .str "shot.png")]), .bytes 1024⟩]⟩) ∧
      text = "Screenshot saved to: " ++ "shot.png") ∧
    (∃ text,
      callTool testEnv cameraEngine "screenshot" .undefined
          (run testEnv cameraEngine World.init [⟨"navigate", exampleUrl⟩])
        = (.ok (textResult text),
            ⟨(run testEnv cameraEngine World.init [⟨"navigate", exampleUrl⟩]).session,
              (run testEnv cameraEngine World.init [⟨"navigate", exampleUrl⟩]).trace
                ++ [⟨.screenshot 2 .undefined, .bytes 1024⟩]⟩) ∧
      text = "Screenshot taken (" ++ toString 1024 ++ " bytes)") := by
  constructor
  · obtain ⟨text, h1, h2, -⟩ := screenshot_reports_path_or_size testEnv cameraEngine
      (.obj [("options", .obj [("path", .str "shot.png")])])
      (run testEnv cameraEngine World.init [⟨"navigate", exampleUrl⟩])
      (.obj [("options", .obj [("path", .str "shot.png")])]) 2 1024 rfl rfl rfl
    exact ⟨text, h1, h2 "shot.png" rfl (by decide)⟩
  · obtain ⟨text, h1, -, h3⟩ := screenshot_reports_path_or_size testEnv cameraEngine .undefined
      (run testEnv cameraEngine World.init [⟨"navigate", exampleUrl⟩]) (.obj []) 2 1024
      rfl rfl rfl
    exact ⟨text, h1, h3 (Or.inl rfl)⟩

/-- C15: with a page in the session and valid arguments, when the engine
answers `null` for the text of the element, get_text succeeds with the text
ending in the placeholder "(empty)"; when it answers `null` for the attribute,
get_attribute succeeds with the text ending in the placeholder "(not found)". -/
theorem missing_value_gets_placeholder (env : Env) (eng : Engine) (args : JVal) (w : World)
    (parsed : JVal) (p : Nat) (hp : w.session.page = some p) :
    (GetTextSchema args = .ok parsed →
      eng.textContent w.trace p (parsed.get "selector") = .ok none →
      callTool env eng "get_text" args w
        = (.ok (textResult ("Text content of " ++ (parsed.get "selector").toStr env.showNum
              ++ ": " ++ "(empty)")),
            ⟨w.session, w.trace ++ [⟨.textContent p (parsed.get "selector"), .text none⟩]⟩)) ∧
    (GetAttributeSchema args = .ok parsed →
      eng.getAttribute w.trace p (parsed.get "selector") (parsed.get "attribute") = .ok none →
      callTool env eng "get_attribute" args w
        = (.ok (textResult ("Attribute \"" ++ (parsed.get "attribute").toStr env.showNum
              ++ "\" of " ++ (parsed.get "selector").toStr env.showNum
              ++ ": " ++ "(not found)")),
            ⟨w.session, w.trace ++ [⟨.getAttribute p (parsed.get "selector")
              (parsed.get "attribute"), .text none⟩]⟩)) := by
  constructor
  · intro hparse hnull
    refine (callTool_ok_iff ..).2 ?_
    show handleGetText env eng args w = _
    unfold handleGetText
    simp [M.andThen, M.parse, hparse, ensurePage_some w p hp, M.await, hnull, M.ret, orText]
  · intro hparse hnull
    refine (callTool_ok_iff ..).2 ?_
    show handleGetAttribute env eng args w = _
    unfold handleGetAttribute
    simp [M.andThen, M.parse, hparse, ensurePage_some w p hp, M.await, hnull, M.ret, orText]

/-- C15, with a session open on the engine that finds no text and no attribute. -/
theorem missing_value_gets_placeholder_witness :
    (callTool testEnv okEngine "get_text" (.obj [("selector", .str "#x")])
        (run testEnv okEngine World.init [⟨"navigate", exampleUrl⟩])).1
      = .ok (textResult "Text content of #x: (empty)") ∧
    (callTool testEnv okEngine "get_attribute"
        (.obj [("selector", .str "#x"), ("attribute", .str "href")])
        (run testEnv okEngine World.init [⟨"navigate", exampleUrl⟩])).1
      = .ok (textResult "Attribute \"href\" of #x: (not found)") :=
  ⟨congrArg Prod.fst ((missing_value_gets_placeholder testEnv okEngine
      (.obj [("selector", .str "#x")])
      (run testEnv okEngine World.init [⟨"navigate", exampleUrl⟩])
      (.obj [("selector", .str "#x")]) 2 rfl).1 rfl rfl),
    congrArg Prod.fst ((missing_value_gets_placeholder testEnv okEngine
      (.obj [("selector", .str "#x"), ("attribute", .str "href")])
      (run testEnv okEngine World.init [⟨"navigate", exampleUrl⟩])
      (.obj [("selector", .str "#x"), ("attribute", .str "href")]) 2 rfl).2 rfl rfl)⟩

/-- C16 as stated fails: with a session open, a scroll call whose selector is
the empty string issues no engine call at all and reports a scroll of the page. -/
theorem scroll_empty_selector_counterexample :
    ScrollSchema (.obj [("selector", .str "")]) = .ok (.obj [("selector", .str "")]) ∧
    callTool testEnv okEngine "scroll" (.obj [("selector", .str "")])
        (run testEnv okEngine World.init [⟨"navigate", exampleUrl⟩])
      = (.ok (textResult "Successfully scrolled page to position (0, 0)"),
          run testEnv okEngine World.init [⟨"navigate", exampleUrl⟩]) :=
  ⟨rfl, rfl⟩

/-- C16, amended: for every scroll call with valid arguments and a page in the
session: when the selector is a non-empty string, the one engine call issued is
the scroll into view of that element; when there is no selector, or it is the
empty string, and at least one of `options.x`, `options.y` is given, the one
engine call issued is the page scroll with those options; when there is no
selector, or it is the empty string, and neither is given, no engine call is
issued and the call succeeds. -/
theorem scroll_issues_one_action (env : Env) (eng : Engine) (args : JVal) (w : World)
    (parsed : JVal) (p : Nat)
    (hparse : ScrollSchema (args.orElse (.obj [])) = .ok parsed)
    (hp : w.session.page = some p) :
    (∀ s, parsed.get "selector" = .str s → s ≠ "" →
      ∃ reply, (callTool env eng "scroll" args w).2
        = ⟨w.session, w.trace ++ [⟨.page p (.scrollIntoViewIfNeeded (.str s)), reply⟩]⟩) ∧
    (parsed.get "selector" = .undefined ∨ parsed.get "selector" = .str "" →
      ((parsed.get "options").get "x").isDefined = true ∨
        ((parsed.get "options").get "y").isDefined = true →
      ∃ reply, (callTool env eng "scroll" args w).2
        = ⟨w.session, w.trace ++ [⟨.page p (.scrollTo (parsed.get "options")), reply⟩]⟩) ∧
    (parsed.get "selector" = .undefined ∨ parsed.get "selector" = .str "" →
      ((parsed.get "options").get "x").isDefined = false →
      ((parsed.get "options").get "y").isDefined = false →
      callTool env eng "scroll" args w
        = (.ok (textResult ("Successfully scrolled page to position ("
            ++ env.showNum 0 ++ ", " ++ env.showNum 0 ++ ")")), w)) := by
  have hsw : toolSwitch env eng "scroll" args w
      = (do
          if (parsed.get "selector").truthy then
            pageDo eng p (.scrollIntoViewIfNeeded (parsed.get "selector"))
          else if ((parsed.get "options").get "x").isDefined
              || ((parsed.get "options").get "y").isDefined then
            pageDo eng p (.scrollTo (parsed.get "options"))
          else
            pure ()
          pure (textResult (
            if (parsed.get "selector").truthy then
              "Successfully scrolled to element: " ++ (parsed.get "selector").toStr env.showNum
            else
              "Successfully scrolled page to position ("
                ++ (((parsed.get "options").get "x").orElse (.num 0)).toStr env.showNum ++ ", "
                ++ (((parsed.get "options").get "y").orElse (.num 0)).toStr env.showNum
                ++ ")")) : M ToolResult) w := by
    show handleScroll env eng args w = _
    unfold handleScroll
    simp only [M.bind_eq, M.pure_eq, M.andThen, M.parse, hparse, ensurePage_some w p hp]
  have hfalse : parsed.get "selector" = .undefined ∨ parsed.get "selector" = .str "" →
      (parsed.get "selector").truthy = false := by
    rintro (h | h) <;> simp [h, JVal.truthy]
  refine ⟨fun s hsel hne => ?_, fun hsel hxy => ?_, fun hsel hx hy => ?_⟩
  · have ht : (JVal.str s).truthy = true := by simp [JVal.truthy, hne]
    rw [hsel] at hsw
    rw [callTool_snd, hsw]
    cases hr : eng.pageOp w.trace p (.scrollIntoViewIfNeeded (.str s)) with
    | ok u =>
      exact ⟨.done, by
        simp only [M.bind_eq, M.pure_eq, ht, if_true, pageDo, M.andThen, M.await, hr, M.ret]⟩
    | error m =>
      exact ⟨.failed m, by
        simp only [M.bind_eq, M.pure_eq, ht, if_true, pageDo, M.andThen, M.await, hr, M.ret]⟩
  · have ht := hfalse hsel
    have hxy' : (((parsed.get "options").get "x").isDefined
        || ((parsed.get "options").get "y").isDefined) = true := by
      simpa using hxy
    rw [callTool_snd, hsw]
    cases hr : eng.pageOp w.trace p (.scrollTo (parsed.get "options")) with
    | ok u =>
      exact ⟨.done, by
        simp only [M.bind_eq, M.pure_eq, ht, hxy', if_true, pageDo, M.andThen, M.await, hr, M.ret,
          Bool.false_eq_true, if_false]⟩
    | error m =>
      exact ⟨.failed m, by
        simp only [M.bind_eq, M.pure_eq, ht, hxy', if_true, pageDo, M.andThen, M.await, hr, M.ret,
          Bool.false_eq_true, if_false]⟩
  · have ht := hfalse hsel
    have hxu : (parsed.get "options").get "x" = .undefined := by
      cases hv : (parsed.get "options").get "x" <;> simp [hv, JVal.isDefined] at hx ⊢
    have hyu : (parsed.get "options").get "y" = .undefined := by
      cases hv : (parsed.get "options").get "y" <;> simp [hv, JVal.isDefined] at hy ⊢
    refine (callTool_ok_iff ..).2 ?_
    rw [hsw]
    simp only [M.bind_eq, M.pure_eq, ht, Bool.false_eq_true, if_false, hxu, hyu]
    simp [JVal.isDefined, M.andThen, M.ret, JVal.orElse, JVal.truthy, JVal.toStr]

/-- C16, amended, with a session open on the engine that always succeeds: the
selector "#footer", the options `{y: 300}`, and no arguments at all. -/
theorem scroll_issues_one_action_witness :
    (∃ reply, (callTool testEnv okEngine "scroll" (.obj [("selector", .str "#footer")])
        (run testEnv okEngine World.init [⟨"navigate", exampleUrl⟩])).2
      = ⟨(run testEnv okEngine World.init [⟨"navigate", exampleUrl⟩]).session,
          (run testEnv okEngine World.init [⟨"navigate", exampleUrl⟩]).trace
            ++ [⟨.page 2 (.scrollIntoViewIfNeeded (.str "#footer")), reply⟩]⟩) ∧
    (∃ reply, (callTool testEnv okEngine "scroll" (.obj [("options", .obj [("y", .num 300)])])
        (run testEnv okEngine World.init [⟨"navigate", exampleUrl⟩])).2
      = ⟨(run testEnv okEngine World.init [⟨"navigate", exampleUrl⟩]).session,
          (run testEnv okEngine World.init [⟨"navigate", exampleUrl⟩]).trace
            ++ [⟨.page 2 (.scrollTo (.obj [("y", .num 300)])), reply⟩]⟩) ∧
    callTool testEnv okEngine "scroll" .undefined
        (run testEnv okEngine World.init [⟨"navigate", exampleUrl⟩])
      = (.ok (textResult ("Successfully scrolled page to position ("
          ++ testEnv.showNum 0 ++ ", " ++ testEnv.showNum 0 ++ ")")),
        run testEnv okEngine World.init [⟨"navigate", exampleUrl⟩]) :=
  ⟨(scroll_issues_one_action testEnv okEngine (.obj [("selector", .str "#footer")])
      (run testEnv okEngine World.init [⟨"navigate", exampleUrl⟩])
      (.obj [("selector", .str "#footer")]) 2 rfl rfl).1 "#footer" rfl (by decide),
    (scroll_issues_one_action testEnv okEngine (.obj [("options", .obj [("y", .num 300)])])
      (run testEnv okEngine World.init [⟨"navigate", exampleUrl⟩])
      (.obj [("options", .obj [("y", .num 300)])]) 2 rfl rfl).2.1 (Or.inl rfl) (Or.inr rfl),
    (scroll_issues_one_action testEnv okEngine .undefined
      (run testEnv okEngine World.init [⟨"navigate", exampleUrl⟩])
      (.obj []) 2 rfl rfl).2.2 (Or.inl rfl) rfl rfl⟩

/-- C17: for every tool whose handler parses its arguments (all but
close_browser; click, type, wait_for_selector, get_text, get_attribute, evaluate,
fill, select_option and press_key among them), in every state, with or without a
session, a call whose arguments fail the schema throws the validation error, not
the no-session error, and changes nothing. -/
theorem validation_runs_before_guard (env : Env) (eng : Engine) (name : String) (args : JVal)
    (w : World) (hname : name ∈ toolNames) (h2 : name ≠ "close_browser")
    (hv : validArguments env name args = false) :
    ∃ issues,
      toolSwitch env eng name args w = (.error (.zod issues), w) ∧
      callTool env eng name args w
        = (.error ⟨.InternalError, "Tool execution failed: " ++ env.zodMessage issues⟩, w) ∧
      Thrown.zod issues ≠ noSessionError := by
  have key : ∃ issues, toolSwitch env eng name args w = (.error (.zod issues), w) := by
    by_cases h1 : name = "navigate"
    · subst h1
      obtain ⟨issues, his⟩ := (isOk_false_iff _).1 (show
        (NavigateSchema env.validUrl args).isOk = false from hv)
      refine ⟨issues, ?_⟩
      rw [toolSwitch_navigate]
      unfold handleNavigate
      simp [M.andThen, M.parse, his]
    · obtain ⟨schema, input, body, hsw, -, hvalid⟩ :=
        pageTool_shape env eng name args hname h1 h2
      rw [hvalid] at hv
      obtain ⟨issues, his⟩ := (isOk_false_iff _).1 hv
      exact ⟨issues, by rw [hsw]; exact guarded_invalid schema input body w issues his⟩
  obtain ⟨issues, hs⟩ := key
  exact ⟨issues, hs, callTool_of_error env eng name args w w _ hs, by simp [noSessionError]⟩

/-- C17, at `click({selector: 123})` in the initial state. -/
theorem validation_runs_before_guard_witness :
    validArguments testEnv "click" (.obj [("selector", .num 123)]) = false ∧
    ∃ issues,
      toolSwitch testEnv okEngine "click" (.obj [("selector", .num 123)]) World.init
        = (.error (.zod issues), World.init) ∧
      callTool testEnv okEngine "click" (.obj [("selector", .num 123)]) World.init
        = (.error ⟨.InternalError, "Tool execution failed: " ++ testEnv.zodMessage issues⟩,
            World.init) ∧
      Thrown.zod issues ≠ noSessionError :=
  ⟨by decide, validation_runs_before_guard testEnv okEngine "click"
    (.obj [("selector", .num 123)]) World.init (by decide) (by decide) (by decide)⟩

/-- C18: when the arguments of navigate are valid, the close of the held
browser (if any), the launch, the creation of the context and the creation of the
page succeed, and the page load then fails, the call fails with the message of
that failure, and the session holds the new browser, context and page: all three
handles are set, `ensurePage` returns the new page, and a call of any tool other
than navigate and close_browser made next does not fail with the no-session
error. -/
theorem navigate_load_failure_keeps_session (env : Env) (eng : Engine) (args : JVal)
    (w : World) (parsed : JVal) (b c p : Nat) (m : String)
    (hparse : NavigateSchema env.validUrl args = .ok parsed)
    (hclose : ∀ old, w.session.browser = some old → eng.close w.trace old = .ok ())
    (hlaunch : eng.launch (closedTrace w) (browserEngineOf (parsed.get "browser"))
      (parsed.get "headless") = .ok b)
    (hctx : eng.newContext (closedTrace w
      ++ [⟨.launch (browserEngineOf (parsed.get "browser")) (parsed.get "headless"),
        .handle b⟩]) b = .ok c)
    (hpage : eng.newPage (closedTrace w
      ++ [⟨.launch (browserEngineOf (parsed.get "browser")) (parsed.get "headless"),
        .handle b⟩]
      ++ [⟨.newContext b, .handle c⟩]) c = .ok p)
    (hgoto : eng.pageOp (closedTrace w
      ++ [⟨.launch (browserEngineOf (parsed.get "browser")) (parsed.get "headless"),
        .handle b⟩]
      ++ [⟨.newContext b, .handle c⟩] ++ [⟨.newPage c, .handle p⟩]) p
      (.goto (parsed.get "url")) = .error m) :
    ∃ w', callTool env eng "navigate" args w
        = (.error ⟨.InternalError, "Tool execution failed: " ++ m⟩, w') ∧
      w'.session = ⟨some b, some c, some p⟩ ∧
      w'.trace = closedTrace w
        ++ [⟨.launch (browserEngineOf (parsed.get "browser")) (parsed.get "headless"),
          .handle b⟩]
        ++ [⟨.newContext b, .handle c⟩] ++ [⟨.newPage c, .handle p⟩]
        ++ [⟨.page p (.goto (parsed.get "url")), .failed m⟩] ∧
      ensurePage w' = (.ok p, w') ∧
      ∀ name args', name ∈ toolNames → name ≠ "navigate" → name ≠ "close_browser" →
        (toolSwitch env eng name args' w').1 ≠ .error noSessionError := by
  have hcl : closeIfOpen eng w = (.ok (), ⟨w.session, closedTrace w⟩) := by
    unfold closeIfOpen closedTrace
    simp only [M.bind_eq, M.andThen, M.getSession]
    cases hb : w.session.browser with
    | none => rfl
    | some old => simp only [M.await, hclose old hb]
  have hs : toolSwitch env eng "navigate" args w
      = (.error (.engine m), ⟨⟨some b, some c, some p⟩, closedTrace w
        ++ [⟨.launch (browserEngineOf (parsed.get "browser")) (parsed.get "headless"),
          .handle b⟩]
        ++ [⟨.newContext b, .handle c⟩] ++ [⟨.newPage c, .handle p⟩]
        ++ [⟨.page p (.goto (parsed.get "url")), .failed m⟩]⟩) := by
    rw [toolSwitch_navigate]
    unfold handleNavigate
    simp only [M.bind_eq, M.pure_eq, M.andThen, M.parse, hparse, hcl, M.await, hlaunch,
      M.setBrowser, hctx, M.setContext, hpage, M.setPage, hgoto]
  refine ⟨_, callTool_of_error env eng "navigate" args w _ _ hs, rfl, rfl,
    ensurePage_some _ p rfl, fun name args' hname h1 h2 => ?_⟩
  exact pageTool_not_noSession env eng name args' _ p hname h1 h2 rfl

/-- C18, on the engine that cannot load a page, from the initial world, followed
by `get_page_info({})`, which passes the guard and succeeds. -/
theorem navigate_load_failure_keeps_session_witness :
    (callTool testEnv noLoadEngine "navigate" exampleUrl World.init).1
      = .error ⟨.InternalError, "Tool execution failed: cannot load page"⟩ ∧
    (callTool testEnv noLoadEngine "navigate" exampleUrl World.init).2.session
      = ⟨some 0, some 1, some 2⟩ ∧
    (ensurePage (callTool testEnv noLoadEngine "navigate" exampleUrl World.init).2).1
      = .ok 2 ∧
    (toolSwitch testEnv noLoadEngine "get_page_info" (.obj [])
        (callTool testEnv noLoadEngine "navigate" exampleUrl World.init).2).1
      ≠ .error noSessionError := by
  obtain ⟨w', h, hs, -, hen, hnext⟩ := navigate_load_failure_keeps_session testEnv noLoadEngine
    exampleUrl World.init
    (.obj [("url", .str "https://example.com"), ("browser", .str "chromium"),
      ("headless", .bool true)])
    0 1 2 "cannot load page" rfl (fun _ hb => by cases hb) rfl rfl rfl rfl
  rw [h]
  exact ⟨rfl, hs, by rw [hen], hnext "get_page_info" (.obj []) (by decide) (by decide)
    (by decide)⟩

/-- C19: with a page in the session and valid arguments, when the engine
answers the empty string for the text of the element, get_text reports
"(empty)", and when it answers the empty string for the attribute, get_attribute
reports "(not found)": the texts are those of a `null` answer, since the
placeholder is chosen by `||`. -/
theorem empty_value_gets_placeholder (env : Env) (eng : Engine) (args : JVal) (w : World)
    (parsed : JVal) (p : Nat) (hp : w.session.page = some p) :
    (GetTextSchema args = .ok parsed →
      eng.textContent w.trace p (parsed.get "selector") = .ok (some "") →
      (callTool env eng "get_text" args w).1
        = .ok (textResult ("Text content of " ++ (parsed.get "selector").toStr env.showNum
            ++ ": " ++ "(empty)"))) ∧
    (GetAttributeSchema args = .ok parsed →
      eng.getAttribute w.trace p (parsed.get "selector") (parsed.get "attribute")
        = .ok (some "") →
      (callTool env eng "get_attribute" args w).1
        = .ok (textResult ("Attribute \"" ++ (parsed.get "attribute").toStr env.showNum
            ++ "\" of " ++ (parsed.get "selector").toStr env.showNum
            ++ ": " ++ "(not found)"))) ∧
    (∀ placeholder, orText (some "") placeholder = orText none placeholder) := by
  refine ⟨fun hparse hempty => ?_, fun hparse hempty => ?_, fun _ => rfl⟩
  · have hs : toolSwitch env eng "get_text" args w
        = (.ok (textResult ("Text content of " ++ (parsed.get "selector").toStr env.showNum
            ++ ": " ++ "(empty)")),
          ⟨w.session, w.trace ++ [⟨.textContent p (parsed.get "selector"), .text (some "")⟩]⟩) := by
      show handleGetText env eng args w = _
      unfold handleGetText
      simp [M.andThen, M.parse, hparse, ensurePage_some w p hp, M.await, hempty, M.ret, orText]
    rw [(callTool_ok_iff ..).2 hs]
  · have hs : toolSwitch env eng "get_attribute" args w
        = (.ok (textResult ("Attribute \"" ++ (parsed.get "attribute").toStr env.showNum
            ++ "\" of " ++ (parsed.get "selector").toStr env.showNum
            ++ ": " ++ "(not found)")),
          ⟨w.session, w.trace ++ [⟨.getAttribute p (parsed.get "selector")
            (parsed.get "attribute"), .text (some "")⟩]⟩) := by
      show handleGetAttribute env eng args w = _
      unfold handleGetAttribute
      simp [M.andThen, M.parse, hparse, ensurePage_some w p hp, M.await, hempty, M.ret, orText]
    rw [(callTool_ok_iff ..).2 hs]

/-- C19, with a session open on the engine that reads the empty string for every
text and attribute. -/
theorem empty_value_gets_placeholder_witness :
    (callTool testEnv emptyTextEngine "get_text" (.obj [("selector", .str "#x")])
        (run testEnv emptyTextEngine World.init [⟨"navigate", exampleUrl⟩])).1
      = .ok (textResult ("Text content of " ++ "#x" ++ ": " ++ "(empty)")) ∧
    (callTool testEnv emptyTextEngine "get_attribute"
        (.obj [("selector", .str "#x"), ("attribute", .str "value")])
        (run testEnv emptyTextEngine World.init [⟨"navigate", exampleUrl⟩])).1
      = .ok (textResult ("Attribute \"" ++ "value" ++ "\" of " ++ "#x" ++ ": "
          ++ "(not found)")) :=
  ⟨(empty_value_gets_placeholder testEnv emptyTextEngine (.obj [("selector", .str "#x")])
      (run testEnv emptyTextEngine World.init [⟨"navigate", exampleUrl⟩])
      (.obj [("selector", .str "#x")]) 2 rfl).1 rfl rfl,
    (empty_value_gets_placeholder testEnv emptyTextEngine
      (.obj [("selector", .str "#x"), ("attribute", .str "value")])
      (run testEnv emptyTextEngine World.init [⟨"navigate", exampleUrl⟩])
      (.obj [("selector", .str "#x"), ("attribute", .str "value")]) 2 rfl).2.1 rfl rfl⟩

end PlaywrightMCP
